import Mathlib

/-!
Verification of the ledger-and-lifecycle engine of a group-savings
("bachat gat") application.  The definitions below are a shallow embedding
of `app/services/wallet_service.py`, `app/services/loan_service.py`,
`app/services/authorization_service.py` and the data model of
`app/models.py`.

Modelling conventions:
* Money amounts are exact rationals (`ℚ`); the Python code uses floats,
  the spec reasons about exact sums.
* Database tables are Lean lists; primary keys are assigned as
  `length + 1` (auto-increment).  Timestamps, free-text descriptions and
  calendar due dates are not modelled (real time).
* Python's `round` (banker's rounding, round-half-to-even) is modelled by
  `pyRound`; `x // y` on nonnegative ints is `Nat` division.
* Randomly generated idempotency keys (`uuid4`) are passed in as explicit
  string parameters: randomness is an input of the model.
* Each service function returns `Except`; an error result models
  `db.session.rollback()` (the caller keeps the unchanged input state).
-/

namespace BachatGat

unseal Rat.add Rat.mul Rat.sub Rat.inv Rat.ofScientific Nat.gcd

abbrev Money := ℚ

/-- Python `round` on an exact rational: round half to even. -/
def pyRound (q : ℚ) : ℤ :=
  let f : ℤ := ⌊q⌋
  let frac : ℚ := q - (f : ℚ)
  if frac < 1/2 then f
  else if 1/2 < frac then f + 1
  else if f % 2 = 0 then f else f + 1

/-- Python `round(q, 2)`: round half to even at two decimal digits. -/
def pyRound2 (q : ℚ) : ℚ := (pyRound (q * 100) : ℚ) / 100

/-- Python truthiness of a nullable numeric column: `None` and `0` are falsy. -/
def pyTruthy : Option Money → Bool
  | none => false
  | some v => v != 0

/-- Python `a or b` for a nullable numeric `a` with default `b`. -/
def pyOr (a : Option Money) (b : Money) : Money :=
  match a with
  | none => b
  | some v => if v = 0 then b else v

/-- `amount != int(amount)` check: the rational is a whole number. -/
def isWhole (q : ℚ) : Bool := q.den == 1

-- ============================================================
-- Data model (app/models.py)
-- ============================================================

inductive TxType
  | contribution | loanDisbursement | repayment | interestDistribution | refund
deriving DecidableEq, Repr

inductive LoanStatus
  | pending | preApproved | approved | rejected | disbursed | completed
deriving DecidableEq, Repr

inductive RepaymentStatus
  | pending | approved | rejected
deriving DecidableEq, Repr

inductive MemberRole
  | admin | member
deriving DecidableEq, Repr

inductive RepaymentType
  | emi | bullet
deriving DecidableEq, Repr

/-- `WalletTransaction`: one row of the append-only ledger. -/
structure WalletTransaction where
  id : Nat
  wallet_id : Nat
  transaction_type : TxType
  amount : Money
  balance_after : Option Money
  reference_id : Option Nat
  created_by : Nat
  beneficiary_id : Option Nat
  idempotency_key : String
  is_reversed : Bool
deriving DecidableEq, Repr

/-- `GroupWallet`: cached aggregate backed by the ledger. -/
structure GroupWallet where
  id : Nat
  group_id : Nat
  balance : Money
  total_contributed : Money
  total_disbursed : Money
  total_interest_earned : Money
  is_dirty : Bool
deriving DecidableEq, Repr

/-- `Group`: only the fields the services read. -/
structure Group where
  id : Nat
  default_interest_rate : Money
  default_loan_duration_months : Nat
  default_repayment_type : RepaymentType
  use_flat_rate : Bool
deriving DecidableEq, Repr

/-- `GroupMember` with the soft-delete flag. -/
structure GroupMember where
  group_id : Nat
  user_id : Nat
  role : MemberRole
  is_active : Bool
deriving DecidableEq, Repr

/-- `MemberLedger`: per-(wallet, user) running totals. -/
structure MemberLedger where
  wallet_id : Nat
  user_id : Nat
  principal_contributed : Money
  interest_earned : Money
  total_balance : Money
deriving DecidableEq, Repr

/-- `MemberContribution` row. -/
structure MemberContribution where
  id : Nat
  wallet_id : Nat
  user_id : Nat
  amount : Money
  transaction_id : Option Nat
deriving DecidableEq, Repr

/-- `LoanRequest`: the central aggregate. -/
structure LoanRequest where
  id : Nat
  group_id : Nat
  requested_by : Nat
  amount : Money
  status : LoanStatus
  total_eligible_voters : Nat
  required_approvals : Nat
  interest_rate : Option Money
  loan_duration_months : Option Nat
  repayment_type : Option RepaymentType
  approved_amount : Option Money
  total_interest : Option Money
  total_repayable : Option Money
  emi_amount : Option Money
  total_principal_repaid : Money
  total_interest_repaid : Money
  total_repaid : Money
  is_active : Bool
deriving DecidableEq, Repr

/-- `LoanApproval`: one vote per (loan, user). -/
structure LoanApproval where
  loan_id : Nat
  user_id : Nat
  approved : Bool
deriving DecidableEq, Repr

/-- `EMISchedule` entry (due dates not modelled). -/
structure EMISchedule where
  id : Nat
  loan_id : Nat
  installment_number : Nat
  emi_amount : Money
  principal_component : Money
  interest_component : Money
  opening_balance : Money
  closing_balance : Money
  is_paid : Bool
deriving DecidableEq, Repr

/-- `LoanContributionSnapshot`: frozen contributor share. -/
structure LoanContributionSnapshot where
  loan_id : Nat
  user_id : Nat
  contribution_amount : Money
  contribution_percentage : Money
  total_eligible_pool : Money
deriving DecidableEq, Repr

/-- `LoanRepayment` row. -/
structure LoanRepayment where
  id : Nat
  loan_id : Nat
  paid_by : Nat
  amount : Money
  principal_component : Money
  interest_component : Money
  emi_schedule_id : Option Nat
  status : RepaymentStatus
  transaction_id : Option Nat
  idempotency_key : String
deriving DecidableEq, Repr

/-- `InterestDistribution` pay-out row. -/
structure InterestDistribution where
  id : Nat
  loan_id : Nat
  repayment_id : Nat
  beneficiary_id : Nat
  contribution_amount : Money
  contribution_percentage : Money
  interest_earned : Money
  transaction_id : Option Nat
deriving DecidableEq, Repr

/-- The persistent store: every table the modelled services touch. -/
structure DBState where
  groups : List Group
  wallets : List GroupWallet
  transactions : List WalletTransaction
  contributions : List MemberContribution
  member_ledgers : List MemberLedger
  members : List GroupMember
  loans : List LoanRequest
  repayments : List LoanRepayment
  emis : List EMISchedule
  snapshots : List LoanContributionSnapshot
  distributions : List InterestDistribution
  approvals : List LoanApproval
deriving DecidableEq, Repr

-- ============================================================
-- Query / update helpers (SQLAlchemy query patterns)
-- ============================================================

def findGroup (st : DBState) (gid : Nat) : Option Group :=
  st.groups.find? (fun g => g.id == gid)

def findWallet (st : DBState) (wid : Nat) : Option GroupWallet :=
  st.wallets.find? (fun w => w.id == wid)

/-- `group.wallet` relationship access. -/
def findWalletByGroup (st : DBState) (gid : Nat) : Option GroupWallet :=
  st.wallets.find? (fun w => w.group_id == gid)

def findLoan (st : DBState) (lid : Nat) : Option LoanRequest :=
  st.loans.find? (fun l => l.id == lid)

def findRepayment (st : DBState) (rid : Nat) : Option LoanRepayment :=
  st.repayments.find? (fun r => r.id == rid)

def updateWallet (st : DBState) (wid : Nat) (f : GroupWallet → GroupWallet) : DBState :=
  { st with wallets := st.wallets.map (fun w => if w.id == wid then f w else w) }

def updateLoan (st : DBState) (lid : Nat) (f : LoanRequest → LoanRequest) : DBState :=
  { st with loans := st.loans.map (fun l => if l.id == lid then f l else l) }

def updateRepayment (st : DBState) (rid : Nat) (f : LoanRepayment → LoanRepayment) : DBState :=
  { st with repayments := st.repayments.map (fun r => if r.id == rid then f r else r) }

def updateEmi (st : DBState) (emiId : Nat) (f : EMISchedule → EMISchedule) : DBState :=
  { st with emis := (st.emis.map fun e => if e.id == emiId then f e else e) }

def updateMemberLedger (st : DBState) (wid uid : Nat) (f : MemberLedger → MemberLedger) : DBState :=
  { st with member_ledgers := (st.member_ledgers.map fun l =>
      if l.wallet_id == wid && l.user_id == uid then f l else l) }

/-- `group.get_active_member_count()`. -/
def activeMemberCount (st : DBState) (gid : Nat) : Nat :=
  (st.members.filter (fun m => m.group_id == gid && m.is_active)).length

/-- `check_idempotency`: lookup a ledger row by idempotency key. -/
def check_idempotency (st : DBState) (key : String) : Option WalletTransaction :=
  st.transactions.find? (fun t => t.idempotency_key == key)

/-- Signed sum of the non-reversed ledger entries of one wallet. -/
def ledgerSum (txns : List WalletTransaction) (wid : Nat) : Money :=
  ((txns.filter (fun t => t.wallet_id == wid && !t.is_reversed)).map
      (fun t => t.amount)).sum

-- ============================================================
-- Authorization service (authorization_service.py)
-- ============================================================

/-- The reason strings of the authorization predicates, as a closed type. -/
inductive AuthReason
  | walletNotFound
  | notGroupMember
  | loanNotFound
  | loanInactive
  | votingClosed (s : LoanStatus)
  | ownLoan
  | alreadyVoted
  | wrongStatusForDisburse (s : LoanStatus)
  | notGroupAdmin
  | groupWalletNotFound
  | insufficientBalance
  | loanAlreadyCompleted
  | wrongStatusForRepay (s : LoanStatus)
  | notBorrower
  | fullyRepaid
  | repaymentNotFound
  | repaymentNotPending (s : RepaymentStatus)
deriving DecidableEq, Repr

/-- `is_group_member`. -/
def is_group_member (st : DBState) (uid gid : Nat) : Bool :=
  (st.members.find? (fun m =>
    m.user_id == uid && m.group_id == gid && m.is_active)).isSome

/-- `is_group_admin`. -/
def is_group_admin (st : DBState) (uid gid : Nat) : Bool :=
  match st.members.find? (fun m =>
      m.user_id == uid && m.group_id == gid && m.is_active) with
  | none => false
  | some m => m.role == MemberRole.admin

/-- `can_contribute`: `none` means allowed, `some r` carries the denial reason. -/
def can_contribute (st : DBState) (user_id wallet_id : Nat) : Option AuthReason :=
  match findWallet st wallet_id with
  | none => some .walletNotFound
  | some w =>
    if is_group_member st user_id w.group_id then none else some .notGroupMember

/-- `can_vote`. -/
def can_vote (st : DBState) (user_id loan_id : Nat) : Option AuthReason :=
  match findLoan st loan_id with
  | none => some .loanNotFound
  | some loan =>
    if !loan.is_active then some .loanInactive
    else if loan.status ≠ LoanStatus.pending then some (.votingClosed loan.status)
    else if !is_group_member st user_id loan.group_id then some .notGroupMember
    else if loan.requested_by = user_id then some .ownLoan
    else if (st.approvals.find? (fun v =>
        v.loan_id == loan_id && v.user_id == user_id)).isSome then some .alreadyVoted
    else none

/-- `can_disburse`. -/
def can_disburse (st : DBState) (user_id loan_id : Nat) : Option AuthReason :=
  match findLoan st loan_id with
  | none => some .loanNotFound
  | some loan =>
    if !loan.is_active then some .loanInactive
    else if loan.status ≠ LoanStatus.approved then some (.wrongStatusForDisburse loan.status)
    else if !is_group_admin st user_id loan.group_id then some .notGroupAdmin
    else
      match findWalletByGroup st loan.group_id with
      | none => some .groupWalletNotFound
      | some w =>
        let disburse_amount := pyOr loan.approved_amount loan.amount
        if w.balance < disburse_amount then some .insufficientBalance else none

/-- `LoanRequest.get_remaining_amount`. -/
def get_remaining_amount (loan : LoanRequest) : Money :=
  if pyTruthy loan.total_repayable then loan.total_repayable.getD 0 - loan.total_repaid
  else 0

/-- `LoanRequest.is_fully_repaid`. -/
def is_fully_repaid (loan : LoanRequest) : Bool :=
  if pyTruthy loan.total_repayable then
    decide (loan.total_repayable.getD 0 ≤ loan.total_repaid)
  else false

/-- `can_repay`. -/
def can_repay (st : DBState) (user_id loan_id : Nat) : Option AuthReason :=
  match findLoan st loan_id with
  | none => some .loanNotFound
  | some loan =>
    if loan.status ≠ LoanStatus.disbursed then
      if loan.status = LoanStatus.completed then some .loanAlreadyCompleted
      else some (.wrongStatusForRepay loan.status)
    else if loan.requested_by ≠ user_id then some .notBorrower
    else if is_fully_repaid loan then some .fullyRepaid
    else none

/-- `can_approve_repayment`. -/
def can_approve_repayment (st : DBState) (user_id repayment_id : Nat) : Option AuthReason :=
  match findRepayment st repayment_id with
  | none => some .repaymentNotFound
  | some r =>
    if r.status ≠ RepaymentStatus.pending then some (.repaymentNotPending r.status)
    else
      match findLoan st r.loan_id with
      | none => some .loanNotFound
      | some loan =>
        if is_group_admin st user_id loan.group_id then none else some .notGroupAdmin

-- ============================================================
-- Wallet service (wallet_service.py)
-- ============================================================

/-- The wallet-service exception taxonomy.  The Python code raises
`WalletError(reason)` when an authorization predicate denies; the denial
reason (including "Insufficient balance") travels in the message, modelled
here by the `authDenied` payload. -/
inductive WalletErr
  | invalidAmount
  | duplicateTransaction
  | insufficientBalance
  | walletNotFound
  | loanNotFound
  | repaymentNotFound
  | invalidThreshold
  | authDenied (r : AuthReason)
deriving DecidableEq, Repr

/-- An error whose kind (type or carried reason) is the insufficient-balance
failure of §7's taxonomy. -/
def WalletErr.signalsInsufficientBalance : WalletErr → Bool
  | .insufficientBalance => true
  | .authDenied .insufficientBalance => true
  | _ => false

/-- `get_or_create_member_ledger`. -/
def get_or_create_member_ledger (st : DBState) (wid uid : Nat) :
    MemberLedger × DBState :=
  match st.member_ledgers.find? (fun l => l.wallet_id == wid && l.user_id == uid) with
  | some l => (l, st)
  | none =>
    let l : MemberLedger := ⟨wid, uid, 0, 0, 0⟩
    (l, { st with member_ledgers := st.member_ledgers ++ [l] })

/-- `contribute_to_wallet`.  The optional caller-supplied idempotency key
(defaulted to a fresh `uuid4`-based key in Python) is the explicit
`idempotency_key` argument. -/
def contribute_to_wallet (st : DBState) (wallet_id user_id : Nat) (amount : Money)
    (idempotency_key : String) :
    Except WalletErr (DBState × MemberContribution × WalletTransaction) :=
  if amount ≤ 0 then .error .invalidAmount
  else
    match findWallet st wallet_id with
    | none => .error .walletNotFound
    | some wallet =>
      match can_contribute st user_id wallet_id with
      | some r => .error (.authDenied r)
      | none =>
        if (check_idempotency st idempotency_key).isSome then
          .error .duplicateTransaction
        else
          let new_balance := wallet.balance + amount
          let contribId := st.contributions.length + 1
          let txn : WalletTransaction :=
            { id := st.transactions.length + 1
              wallet_id := wallet_id
              transaction_type := .contribution
              amount := amount
              balance_after := some new_balance
              reference_id := some contribId
              created_by := user_id
              beneficiary_id := none
              idempotency_key := idempotency_key
              is_reversed := false }
          let contribution : MemberContribution :=
            ⟨contribId, wallet_id, user_id, amount, some txn.id⟩
          let st1 := { st with
            transactions := st.transactions ++ [txn]
            contributions := st.contributions ++ [contribution] }
          let st2 := (get_or_create_member_ledger st1 wallet_id user_id).2
          let st3 := updateMemberLedger st2 wallet_id user_id (fun l =>
            { l with principal_contributed := l.principal_contributed + amount
                     total_balance := l.total_balance + amount })
          let st4 := updateWallet st3 wallet_id (fun w =>
            { w with balance := new_balance
                     total_contributed := w.total_contributed + amount
                     is_dirty := false })
          .ok (st4, contribution, txn)

/-- `create_contribution_snapshot`: freeze each non-borrower contributor's
share of the pool (borrower excluded, only positive contributions). -/
def create_contribution_snapshot (st : DBState) (loan_id borrower_id wallet_id : Nat) :
    DBState × List LoanContributionSnapshot :=
  let ledgers := st.member_ledgers.filter (fun l =>
    l.wallet_id == wallet_id && l.user_id != borrower_id && 0 < l.principal_contributed)
  if ledgers.isEmpty then (st, [])
  else
    let total_eligible_pool := (ledgers.map (fun l => l.principal_contributed)).sum
    if total_eligible_pool ≤ 0 then (st, [])
    else
      let snaps := ledgers.map (fun l =>
        (⟨loan_id, l.user_id, l.principal_contributed,
          l.principal_contributed / total_eligible_pool * 100,
          total_eligible_pool⟩ : LoanContributionSnapshot))
      ({ st with snapshots := st.snapshots ++ snaps }, snaps)

/-- `disburse_loan`. -/
def disburse_loan (st : DBState) (loan_id admin_user_id : Nat)
    (idempotency_key : String) :
    Except WalletErr (DBState × WalletTransaction) :=
  match findLoan st loan_id with
  | none => .error .loanNotFound
  | some loan =>
    match can_disburse st admin_user_id loan_id with
    | some r => .error (.authDenied r)
    | none =>
      if (check_idempotency st idempotency_key).isSome then
        .error .duplicateTransaction
      else
        match findWalletByGroup st loan.group_id with
        | none => .error .walletNotFound
        | some wallet =>
          let disburse_amount := pyOr loan.approved_amount loan.amount
          if wallet.balance < disburse_amount then .error .insufficientBalance
          else
            let st1 := (create_contribution_snapshot st loan_id loan.requested_by wallet.id).1
            let new_balance := wallet.balance - disburse_amount
            let txn : WalletTransaction :=
              { id := st1.transactions.length + 1
                wallet_id := wallet.id
                transaction_type := .loanDisbursement
                amount := -disburse_amount
                balance_after := some new_balance
                reference_id := some loan.id
                created_by := admin_user_id
                beneficiary_id := some loan.requested_by
                idempotency_key := idempotency_key
                is_reversed := false }
            let st2 := { st1 with transactions := st1.transactions ++ [txn] }
            let st3 := updateLoan st2 loan_id (fun l => { l with status := .disbursed })
            let st4 := updateWallet st3 wallet.id (fun w =>
              { w with balance := new_balance
                       total_disbursed := w.total_disbursed + disburse_amount
                       is_dirty := false })
            .ok (st4, txn)

/-- `submit_repayment`.  The internally generated
`repay_{loan_id}_{uuid4().hex}` idempotency key is the `freshKey`
argument; the Python signature takes no caller key. -/
def submit_repayment (st : DBState) (loan_id user_id : Nat) (amount : Money)
    (emi_schedule_id : Option Nat) (freshKey : String) :
    Except WalletErr (DBState × LoanRepayment) :=
  if amount ≤ 0 then .error .invalidAmount
  else
    match findLoan st loan_id with
    | none => .error .loanNotFound
    | some loan =>
      match can_repay st user_id loan_id with
      | some r => .error (.authDenied r)
      | none =>
        let remaining := get_remaining_amount loan
        let actual_amount := min amount remaining
        let split : Money × Money :=
          if pyTruthy loan.total_repayable && pyTruthy loan.total_interest
              && decide (0 < loan.total_interest.getD 0) then
            let interest_part :=
              actual_amount * (loan.total_interest.getD 0 / loan.total_repayable.getD 0)
            (actual_amount - interest_part, interest_part)
          else (actual_amount, 0)
        let repayment : LoanRepayment :=
          { id := st.repayments.length + 1
            loan_id := loan_id
            paid_by := user_id
            amount := actual_amount
            principal_component := split.1
            interest_component := split.2
            emi_schedule_id := emi_schedule_id
            status := .pending
            transaction_id := none
            idempotency_key := freshKey }
        .ok ({ st with repayments := st.repayments ++ [repayment] }, repayment)

/-- One iteration of the `distribute_interest_to_members` loop. -/
def distributeOne (loanId repaymentId : Nat) (walletId : Nat)
    (interest_amount : Money) (admin_user_id : Nat) (interestKey : Nat → String)
    (acc : DBState × List InterestDistribution) (snapshot : LoanContributionSnapshot) :
    DBState × List InterestDistribution :=
  let s := acc.1
  let ds := acc.2
  let interest_share := snapshot.contribution_percentage / 100 * interest_amount
  if interest_share ≤ 0 then (s, ds)
  else
    let distId := s.distributions.length + 1
    let txnId := s.transactions.length + 1
    let dist : InterestDistribution :=
      { id := distId
        loan_id := loanId
        repayment_id := repaymentId
        beneficiary_id := snapshot.user_id
        contribution_amount := snapshot.contribution_amount
        contribution_percentage := snapshot.contribution_percentage
        interest_earned := interest_share
        transaction_id := some txnId }
    let s1 := { s with distributions := s.distributions ++ [dist] }
    let s2 := (get_or_create_member_ledger s1 walletId snapshot.user_id).2
    let s3 := updateMemberLedger s2 walletId snapshot.user_id (fun l =>
      { l with interest_earned := l.interest_earned + interest_share
               total_balance := l.total_balance + interest_share })
    let txn : WalletTransaction :=
      { id := txnId
        wallet_id := walletId
        transaction_type := .interestDistribution
        amount := 0
        balance_after := none
        reference_id := some distId
        created_by := admin_user_id
        beneficiary_id := some snapshot.user_id
        idempotency_key := interestKey snapshot.user_id
        is_reversed := false }
    let s4 := { s3 with transactions := s3.transactions ++ [txn] }
    (s4, ds ++ [dist])

/-- `distribute_interest_to_members`: iterate the loan's frozen snapshots.
The per-beneficiary `interest_{...}_{uuid}` keys are `interestKey`. -/
def distribute_interest_to_members (st : DBState) (loan : LoanRequest)
    (repayment : LoanRepayment) (wallet : GroupWallet) (interest_amount : Money)
    (admin_user_id : Nat) (interestKey : Nat → String) :
    DBState × List InterestDistribution :=
  let snaps := st.snapshots.filter (fun s => s.loan_id == loan.id)
  snaps.foldl
    (distributeOne loan.id repayment.id wallet.id interest_amount admin_user_id interestKey)
    (st, [])

/-- `approve_repayment`.  `freshKey` is the generated
`repay_approve_{id}_{uuid}` ledger key, `interestKey` the generated keys
of the interest-credit entries. -/
def approve_repayment (st : DBState) (repayment_id admin_user_id : Nat)
    (freshKey : String) (interestKey : Nat → String) :
    Except WalletErr (DBState × WalletTransaction × List InterestDistribution) :=
  match findRepayment st repayment_id with
  | none => .error .repaymentNotFound
  | some repayment =>
    match can_approve_repayment st admin_user_id repayment_id with
    | some r => .error (.authDenied r)
    | none =>
      match findLoan st repayment.loan_id with
      | none => .error .loanNotFound
      | some loan =>
        match findWalletByGroup st loan.group_id with
        | none => .error .walletNotFound
        | some wallet =>
          -- `loan.total_repayable or loan.approved_amount`: a `None or None`
          -- comparison would crash in Python and roll the unit of work back.
          match (if pyTruthy loan.total_repayable then loan.total_repayable
                 else loan.approved_amount) with
          | none => .error .invalidThreshold
          | some threshold =>
            let st1 := updateRepayment st repayment_id (fun r =>
              { r with status := .approved })
            let new_balance := wallet.balance + repayment.amount
            let txn : WalletTransaction :=
              { id := st1.transactions.length + 1
                wallet_id := wallet.id
                transaction_type := .repayment
                amount := repayment.amount
                balance_after := some new_balance
                reference_id := some repayment.id
                created_by := admin_user_id
                beneficiary_id := none
                idempotency_key := freshKey
                is_reversed := false }
            let st2 := { st1 with transactions := st1.transactions ++ [txn] }
            let st3 := updateRepayment st2 repayment_id (fun r =>
              { r with transaction_id := some txn.id })
            let st4 := updateLoan st3 loan.id (fun l =>
              { l with
                total_principal_repaid := l.total_principal_repaid + repayment.principal_component
                total_interest_repaid := l.total_interest_repaid + repayment.interest_component
                total_repaid := l.total_repaid + repayment.amount })
            let distributed :=
              if 0 < repayment.interest_component then
                distribute_interest_to_members st4 loan repayment wallet
                  repayment.interest_component admin_user_id interestKey
              else (st4, [])
            let st5 := distributed.1
            let new_total_repaid := loan.total_repaid + repayment.amount
            let st6 :=
              if threshold ≤ new_total_repaid then
                updateLoan st5 loan.id (fun l => { l with status := .completed })
              else st5
            let st7 := updateWallet st6 wallet.id (fun w =>
              { w with balance := new_balance
                       total_interest_earned := w.total_interest_earned + repayment.interest_component
                       is_dirty := false })
            let st8 :=
              match repayment.emi_schedule_id with
              | some eid => updateEmi st7 eid (fun e => { e with is_paid := true })
              | none => st7
            .ok (st8, txn, distributed.2)

/-- Result record of `recalculate_wallet_balance`. -/
structure RecalcResult where
  previous_balance : Money
  calculated_balance : Money
  difference : Money
  was_corrected : Bool
  total_contributed : Money
  total_disbursed : Money
  total_repaid : Money
deriving DecidableEq, Repr

/-- `recalculate_wallet_balance`: audit/repair of the cached balance. -/
def recalculate_wallet_balance (st : DBState) (wallet_id : Nat) :
    Except WalletErr (DBState × RecalcResult) :=
  match findWallet st wallet_id with
  | none => .error .walletNotFound
  | some wallet =>
    let txns := st.transactions.filter (fun t =>
      t.wallet_id == wallet_id && !t.is_reversed)
    let calculated_balance := (txns.map (fun t => t.amount)).sum
    let contribs := ((txns.filter (fun t =>
      t.transaction_type == TxType.contribution)).map (fun t => t.amount)).sum
    let disbursements := ((txns.filter (fun t =>
      t.transaction_type == TxType.loanDisbursement)).map (fun t => |t.amount|)).sum
    let repaymentsSum := ((txns.filter (fun t =>
      t.transaction_type == TxType.repayment)).map (fun t => t.amount)).sum
    let difference := calculated_balance - wallet.balance
    let was_corrected := decide (1/100 < |difference|)
    let st1 :=
      if was_corrected then
        updateWallet st wallet_id (fun w =>
          { w with balance := calculated_balance
                   total_contributed := contribs
                   total_disbursed := disbursements })
      else st
    let st2 := updateWallet st1 wallet_id (fun w => { w with is_dirty := false })
    .ok (st2, ⟨wallet.balance, calculated_balance, difference, was_corrected,
      contribs, disbursements, repaymentsSum⟩)

-- ============================================================
-- Loan service (loan_service.py)
-- ============================================================

/-- The loan-service exception taxonomy (`LoanError` reasons plus
`AuthorizationError`).  `internalError` models a Python runtime error
caught by the generic handler (rollback + `LoanError`). -/
inductive LoanServiceErr
  | invalidAmount
  | notWholeAmount
  | groupNotFound
  | noWallet
  | insufficientFunds
  | alreadyPendingLoan
  | notEnoughMembers
  | internalError
  | authDenied (r : AuthReason)
deriving DecidableEq, Repr

/-- The raised exception is a `LoanError` (not an `AuthorizationError`). -/
def LoanServiceErr.isLoanError : LoanServiceErr → Bool
  | .authDenied _ => false
  | _ => true

/-- `create_loan_request`. -/
def create_loan_request (st : DBState) (group_id user_id : Nat) (amount : Money) :
    Except LoanServiceErr (DBState × LoanRequest) :=
  if amount ≤ 0 then .error .invalidAmount
  else if !isWhole amount then .error .notWholeAmount
  else
    match findGroup st group_id with
    | none => .error .groupNotFound
    | some _ =>
      match findWalletByGroup st group_id with
      | none => .error .noWallet
      | some wallet =>
        if wallet.balance < amount then .error .insufficientFunds
        else if !is_group_member st user_id group_id then
          .error (.authDenied .notGroupMember)
        else if (st.loans.find? (fun l =>
            l.group_id == group_id && l.requested_by == user_id &&
            l.status == LoanStatus.pending && l.is_active)).isSome then
          .error .alreadyPendingLoan
        else
          let total_members := activeMemberCount st group_id
          let eligible_voters := total_members - 1
          let required_approvals := eligible_voters / 2 + 1
          if eligible_voters < 1 then .error .notEnoughMembers
          else
            let loan : LoanRequest :=
              { id := st.loans.length + 1
                group_id := group_id
                requested_by := user_id
                amount := amount
                status := .pending
                total_eligible_voters := eligible_voters
                required_approvals := required_approvals
                interest_rate := none
                loan_duration_months := none
                repayment_type := none
                approved_amount := none
                total_interest := none
                total_repayable := none
                emi_amount := none
                total_principal_repaid := 0
                total_interest_repaid := 0
                total_repaid := 0
                is_active := true }
            .ok ({ st with loans := st.loans ++ [loan] }, loan)

/-- `loan.get_approval_count()`. -/
def get_approval_count (st : DBState) (lid : Nat) : Nat :=
  (st.approvals.filter (fun v => v.loan_id == lid && v.approved)).length

/-- `loan.get_rejection_count()`. -/
def get_rejection_count (st : DBState) (lid : Nat) : Nat :=
  (st.approvals.filter (fun v => v.loan_id == lid && !v.approved)).length

/-- The loop body of `generate_emi_schedule_reducing_balance`: installment
`i` of `n`, opening `balance`, with `k` installments still to emit. -/
def rbScheduleAux (loanId firstId : Nat) (emi r : ℚ) (n : Nat) :
    Nat → Nat → ℚ → List EMISchedule
  | _i, 0, _balance => []
  | i, k+1, balance =>
    let interest0 := balance * r
    let principal0 := emi - interest0
    let pc : ℚ := if i = n then balance else principal0
    let ic : ℚ := if i = n then max (emi - balance) 0 else interest0
    let closing := balance - pc
    let entry : EMISchedule :=
      { id := firstId + i - 1
        loan_id := loanId
        installment_number := i
        emi_amount := emi
        principal_component := (pyRound pc : ℚ)
        interest_component := (pyRound ic : ℚ)
        opening_balance := (pyRound balance : ℚ)
        closing_balance := (pyRound (max closing 0) : ℚ)
        is_paid := false }
    entry :: rbScheduleAux loanId firstId emi r n (i+1) k closing

/-- Result of an EMI-schedule generation: the loan's aggregate fields and
the schedule rows. -/
structure EmiGenResult where
  emi_amount : Money
  total_interest : Money
  total_repayable : Money
  entries : List EMISchedule
deriving DecidableEq, Repr

/-- `generate_emi_schedule_reducing_balance` (default method): EMI by the
amortized-payment formula, rounded to a whole unit; `total_interest`
recomputed from the rounded EMI.  Returns `none` when the duration is
falsy (the Python function returns without setting anything). -/
def generate_emi_schedule_reducing_balance (loanId firstId : Nat)
    (principal annual_rate : ℚ) (n : Nat) : Option EmiGenResult :=
  if n = 0 then none
  else
    let r := annual_rate / 12 / 100
    let emi0 : ℚ :=
      if 0 < r then principal * r * (1+r)^n / ((1+r)^n - 1)
      else principal / (n : ℚ)
    let emi : ℚ := (pyRound emi0 : ℚ)
    let ti := emi * (n : ℚ) - principal
    let tr := principal + ti
    some ⟨emi, (pyRound ti : ℚ), (pyRound tr : ℚ),
      rbScheduleAux loanId firstId emi r n 1 n principal⟩

/-- The loop body of the flat-rate `generate_emi_schedule`. -/
def flatScheduleAux (loanId firstId : Nat) (ppm ipm emiAmt ti : ℚ) (n : Nat) :
    Nat → Nat → ℚ → List EMISchedule
  | _i, 0, _balance => []
  | i, k+1, balance =>
    let pc : ℚ := if i = n then balance else ppm
    let ic : ℚ := if i = n then ti - ipm * ((n : ℚ) - 1) else ipm
    let emiThis : ℚ := if i = n then pc + ic else emiAmt
    let closing := balance - pc
    let entry : EMISchedule :=
      { id := firstId + i - 1
        loan_id := loanId
        installment_number := i
        emi_amount := pyRound2 emiThis
        principal_component := pyRound2 pc
        interest_component := pyRound2 ic
        opening_balance := pyRound2 balance
        closing_balance := pyRound2 (max closing 0)
        is_paid := false }
    entry :: flatScheduleAux loanId firstId ppm ipm emiAmt ti n (i+1) k closing

/-- Flat-rate `generate_emi_schedule`: returns the overwritten
`loan.emi_amount` and the schedule rows; `none` when the duration is falsy. -/
def generate_emi_schedule (loanId firstId : Nat) (principal ti : ℚ) (n : Nat) :
    Option (Money × List EMISchedule) :=
  if n = 0 then none
  else
    let ppm := principal / (n : ℚ)
    let ipm := ti / (n : ℚ)
    let emiAmt := ppm + ipm
    some (pyRound2 emiAmt, flatScheduleAux loanId firstId ppm ipm emiAmt ti n 1 n principal)

/-- `approve_loan_with_interest`: fill unset terms from group defaults,
then compute interest and (for EMI loans) the installment schedule.
Returns `none` for the flat-rate zero-duration division crash (generic
exception, rolled back by the caller). -/
def approve_loan_with_interest (st : DBState) (loan_id : Nat)
    (is_regeneration : Bool) : Option DBState :=
  match findLoan st loan_id with
  | none => some st
  | some loan =>
    match findGroup st loan.group_id with
    | none => some st
    | some group =>
      let interest_rate :=
        match loan.interest_rate with
        | none => group.default_interest_rate
        | some v => v
      let months :=
        match loan.loan_duration_months with
        | none => group.default_loan_duration_months
        | some v => v
      let rtype :=
        match loan.repayment_type with
        | none => group.default_repayment_type
        | some v => v
      let approved_amount :=
        if !pyTruthy loan.approved_amount then loan.amount
        else if is_regeneration && loan.approved_amount.getD 0 != loan.amount then loan.amount
        else loan.approved_amount.getD 0
      let setTerms : LoanRequest → LoanRequest := fun l =>
        { l with interest_rate := some interest_rate
                 loan_duration_months := some months
                 repayment_type := some rtype
                 approved_amount := some approved_amount }
      match rtype with
      | .emi =>
        let st1 :=
          if is_regeneration then
            { st with emis := st.emis.filter (fun e => e.loan_id != loan_id) }
          else st
        if group.use_flat_rate then
          let ti0 := approved_amount * interest_rate * ((months : ℚ) / 12) / 100
          let tr0 := approved_amount + ti0
          if months = 0 then none  -- `emi = total_repayable / 0` raises in Python
          else
            let emi0 := tr0 / (months : ℚ)
            let ti : ℚ := (pyRound ti0 : ℚ)
            let tr : ℚ := (pyRound tr0 : ℚ)
            let emiR : ℚ := (pyRound emi0 : ℚ)
            match generate_emi_schedule loan_id (st1.emis.length + 1) approved_amount ti months with
            | none =>
              some (updateLoan st1 loan_id (fun l =>
                { setTerms l with total_interest := some ti
                                  total_repayable := some tr
                                  emi_amount := some emiR }))
            | some (emiNew, entries) =>
              let st2 := updateLoan st1 loan_id (fun l =>
                { setTerms l with total_interest := some ti
                                  total_repayable := some tr
                                  emi_amount := some emiNew })
              some { st2 with emis := st2.emis ++ entries }
        else
          match generate_emi_schedule_reducing_balance loan_id (st1.emis.length + 1)
              approved_amount interest_rate months with
          | none => some (updateLoan st1 loan_id setTerms)
          | some res =>
            let st2 := updateLoan st1 loan_id (fun l =>
              { setTerms l with total_interest := some res.total_interest
                                total_repayable := some res.total_repayable
                                emi_amount := some res.emi_amount })
            some { st2 with emis := st2.emis ++ res.entries }
      | .bullet =>
        let ti0 := approved_amount * interest_rate * ((months : ℚ) / 12) / 100
        let tr0 := approved_amount + ti0
        some (updateLoan st loan_id (fun l =>
          { setTerms l with total_interest := some ((pyRound ti0 : ℤ) : ℚ)
                            total_repayable := some ((pyRound tr0 : ℤ) : ℚ)
                            emi_amount := none }))

/-- `cast_vote`, with the dynamic quorum adjustment for member departure. -/
def cast_vote (st : DBState) (loan_id user_id : Nat) (approved : Bool) :
    Except LoanServiceErr (DBState × LoanStatus) :=
  match can_vote st user_id loan_id with
  | some r => .error (.authDenied r)
  | none =>
    match findLoan st loan_id with
    | none => .error .internalError  -- unreachable, `can_vote` found the loan
    | some loan =>
      let st1 := { st with approvals := st.approvals ++ [⟨loan_id, user_id, approved⟩] }
      let approval_count := get_approval_count st1 loan_id
      let rejection_count := get_rejection_count st1 loan_id
      let votes_cast := approval_count + rejection_count
      let current_active_members := activeMemberCount st1 loan.group_id
      let applicant_active := (st1.members.find? (fun m =>
        m.group_id == loan.group_id && m.user_id == loan.requested_by && m.is_active)).isSome
      if !applicant_active then
        .ok (updateLoan st1 loan_id (fun l => { l with status := .rejected }),
          LoanStatus.rejected)
      else
        let current_eligible_voters := current_active_members - 1
        let effective_eligible := min loan.total_eligible_voters current_eligible_voters
        let effective_required := effective_eligible / 2 + 1
        if effective_required ≤ approval_count ∧ 0 < votes_cast then
          match approve_loan_with_interest st1 loan_id false with
          | none => .error .internalError
          | some st2 =>
            let admin_members := st2.members.filter (fun m =>
              m.group_id == loan.group_id && m.role == MemberRole.admin && m.is_active)
            let is_applicant_admin := admin_members.any (fun m => m.user_id == loan.requested_by)
            let only_one_admin := admin_members.length == 1
            let newStatus :=
              if is_applicant_admin && only_one_admin then LoanStatus.approved
              else LoanStatus.preApproved
            .ok (updateLoan st2 loan_id (fun l => { l with status := newStatus }), newStatus)
        else if effective_required ≤ rejection_count then
          .ok (updateLoan st1 loan_id (fun l => { l with status := .rejected }),
            LoanStatus.rejected)
        else
          .ok (st1, loan.status)

-- ============================================================
-- Extraction lemmas
-- ============================================================

/-- Shape of a successful `submit_repayment`: the checks that passed and
the exact state written. -/
lemma submit_ok (st : DBState) (lid uid : Nat) (amt : Money) (eid : Option Nat)
    (key : String) (out : DBState × LoanRepayment)
    (h : submit_repayment st lid uid amt eid key = .ok out) :
    ∃ loan, findLoan st lid = some loan ∧ can_repay st uid lid = none ∧ 0 < amt ∧
      out.1 = { st with repayments := st.repayments ++ [out.2] } ∧
      out.2 = { id := st.repayments.length + 1, loan_id := lid, paid_by := uid,
                amount := min amt (get_remaining_amount loan),
                principal_component :=
                  if pyTruthy loan.total_repayable && pyTruthy loan.total_interest
                      && decide (0 < loan.total_interest.getD 0) then
                    min amt (get_remaining_amount loan) -
                      min amt (get_remaining_amount loan) *
                        (loan.total_interest.getD 0 / loan.total_repayable.getD 0)
                  else min amt (get_remaining_amount loan),
                interest_component :=
                  if pyTruthy loan.total_repayable && pyTruthy loan.total_interest
                      && decide (0 < loan.total_interest.getD 0) then
                    min amt (get_remaining_amount loan) *
                      (loan.total_interest.getD 0 / loan.total_repayable.getD 0)
                  else 0,
                emi_schedule_id := eid, status := .pending, transaction_id := none,
                idempotency_key := key } := by
  simp only [submit_repayment] at h
  split at h
  · exact absurd h (by simp)
  next hpos =>
    split at h
    · exact absurd h (by simp)
    next loan hfind =>
      split at h
      · exact absurd h (by simp)
      next hcan =>
        injection h with h'
        subst h'
        refine ⟨loan, hfind, hcan, by linarith, ?_, ?_⟩
        · rfl
        · show _ = _
          split <;> rfl

/-- `can_repay` reads only the loan row. -/
lemma can_repay_congr (st st' : DBState) (uid lid : Nat)
    (h : findLoan st' lid = findLoan st lid) :
    can_repay st' uid lid = can_repay st uid lid := by
  unfold can_repay
  rw [h]

-- ============================================================
-- Concrete base states for witnesses
-- ============================================================

/-- Witness group: defaults 12% annual, 12 months, bullet repayment. -/
def wGroup : Group := ⟨1, 12, 12, RepaymentType.bullet, false⟩

/-- Witness wallet with a prior balance of 10000. -/
def wWallet : GroupWallet := ⟨1, 1, 10000, 10000, 0, 0, false⟩

def wAdmin : GroupMember := ⟨1, 1, MemberRole.admin, true⟩
def wMemB : GroupMember := ⟨1, 2, MemberRole.member, true⟩
def wMemC : GroupMember := ⟨1, 3, MemberRole.member, true⟩

/-- A disbursed bullet loan of 1000 at 12% for 12 months. -/
def wLoanDisbursed : LoanRequest :=
  { id := 1, group_id := 1, requested_by := 2, amount := 1000,
    status := LoanStatus.disbursed, total_eligible_voters := 2, required_approvals := 2,
    interest_rate := some 12, loan_duration_months := some 12,
    repayment_type := some RepaymentType.bullet, approved_amount := some 1000,
    total_interest := some 120, total_repayable := some 1120, emi_amount := none,
    total_principal_repaid := 0, total_interest_repaid := 0, total_repaid := 0,
    is_active := true }

/-- Base state with a disbursed loan awaiting repayment. -/
def stRepay : DBState :=
  { groups := [wGroup], wallets := [wWallet], transactions := [], contributions := [],
    member_ledgers := [⟨1, 1, 6000, 0, 6000⟩, ⟨1, 3, 4000, 0, 4000⟩],
    members := [wAdmin, wMemB, wMemC], loans := [wLoanDisbursed], repayments := [],
    emis := [], snapshots := [], distributions := [], approvals := [] }

-- ============================================================
-- C7: submit_repayment is frame-preserving
-- ============================================================

/-- C7: a valid submission on a disbursed loan creates only a pending
`LoanRepayment` and leaves the ledger, the wallet cache, the member
ledgers and the loan rows (hence the repaid totals) unchanged; the
recorded amount is `min(requested, remaining)`, the interest component is
`amount * total_interest / total_repayable` (zero when `total_interest`
is not positive) and the principal component is the remainder. -/
theorem submit_repayment_frame (st : DBState) (lid uid : Nat) (amt : Money)
    (eid : Option Nat) (key : String) (out : DBState × LoanRepayment)
    (loan : LoanRequest) (hloan : findLoan st lid = some loan)
    (h : submit_repayment st lid uid amt eid key = .ok out) :
    out.1.transactions = st.transactions ∧
    out.1.wallets = st.wallets ∧
    out.1.member_ledgers = st.member_ledgers ∧
    out.1.loans = st.loans ∧
    out.1.snapshots = st.snapshots ∧
    out.1.distributions = st.distributions ∧
    out.1.repayments = st.repayments ++ [out.2] ∧
    out.2.status = RepaymentStatus.pending ∧
    out.2.amount = min amt (get_remaining_amount loan) ∧
    (pyTruthy loan.total_repayable = true → pyTruthy loan.total_interest = true →
      0 < loan.total_interest.getD 0 →
      out.2.interest_component =
        out.2.amount * (loan.total_interest.getD 0 / loan.total_repayable.getD 0)) ∧
    (¬ 0 < loan.total_interest.getD 0 → out.2.interest_component = 0) ∧
    out.2.principal_component = out.2.amount - out.2.interest_component := by
  obtain ⟨loan', hfind, _hcan, _hpos, hst, hrp⟩ := submit_ok st lid uid amt eid key out h
  rw [hloan] at hfind
  injection hfind with hL
  subst hL
  refine ⟨?_, ?_, ?_, ?_, ?_, ?_, ?_, ?_, ?_, ?_, ?_, ?_⟩
  · rw [hst]
  · rw [hst]
  · rw [hst]
  · rw [hst]
  · rw [hst]
  · rw [hst]
  · rw [hst]
  · rw [hrp]
  · rw [hrp]
  · intro h1 h2 h3
    rw [hrp]
    simp [h1, h2, h3]
  · intro h3
    rw [hrp]
    simp only []
    have : decide (0 < loan.total_interest.getD 0) = false := by
      simpa using h3
    simp [this]
  · rw [hrp]
    split <;> simp

/-- Witness result of the C7 submission. -/
def wSubOut : DBState × LoanRepayment :=
  (submit_repayment stRepay 1 2 500 none "repay_1_aa").toOption.getD
    (stRepay, ⟨0, 0, 0, 0, 0, 0, none, RepaymentStatus.pending, none, ""⟩)

theorem submit_repayment_frame_witness :
    findLoan stRepay 1 = some wLoanDisbursed ∧
    submit_repayment stRepay 1 2 500 none "repay_1_aa" = .ok wSubOut ∧
    wSubOut.1.transactions = stRepay.transactions ∧
    wSubOut.2.status = RepaymentStatus.pending := by
  refine ⟨by decide, by rfl, ?_, ?_⟩
  · exact (submit_repayment_frame stRepay 1 2 500 none "repay_1_aa" wSubOut
      wLoanDisbursed (by decide) (by rfl)).1
  · exact (submit_repayment_frame stRepay 1 2 500 none "repay_1_aa" wSubOut
      wLoanDisbursed (by decide) (by rfl)).2.2.2.2.2.2.2.1

-- ============================================================
-- C10: no duplicate protection at submission time
-- ============================================================

/-- C10: `submit_repayment` generates its idempotency key internally
(the Python signature takes no caller key; the fresh `uuid4` hexes are
the `k1`/`k2` parameters of the model), so an identical second submission
by the same borrower for the same loan and amount succeeds and creates a
second, distinct pending `LoanRepayment` row instead of being rejected as
a duplicate. -/
theorem submit_repayment_no_duplicate_protection (st : DBState) (lid uid : Nat)
    (amt : Money) (k1 k2 : String) (hk : k1 ≠ k2) (out1 : DBState × LoanRepayment)
    (h1 : submit_repayment st lid uid amt none k1 = .ok out1) :
    ∃ out2, submit_repayment out1.1 lid uid amt none k2 = .ok out2 ∧
      out2.1.repayments = st.repayments ++ [out1.2, out2.2] ∧
      out1.2.id ≠ out2.2.id ∧
      out1.2.idempotency_key ≠ out2.2.idempotency_key ∧
      out1.2.status = RepaymentStatus.pending ∧
      out2.2.status = RepaymentStatus.pending ∧
      out1.2.loan_id = lid ∧ out2.2.loan_id = lid ∧
      out1.2.paid_by = uid ∧ out2.2.paid_by = uid ∧
      out2.2.amount = out1.2.amount := by
  obtain ⟨loan, hfind, hcan, hpos, hst, hrp⟩ := submit_ok st lid uid amt none k1 out1 h1
  have hfind' : findLoan out1.1 lid = some loan := by
    rw [hst]; exact hfind
  have hcan' : can_repay out1.1 uid lid = none := by
    rw [can_repay_congr st out1.1 uid lid (by rw [hst]; rfl)]
    exact hcan
  have h2 : ∃ out2, submit_repayment out1.1 lid uid amt none k2 = .ok out2 := by
    simp only [submit_repayment, hfind', hcan']
    rw [if_neg (by linarith)]
    exact ⟨_, rfl⟩
  obtain ⟨out2, h2⟩ := h2
  obtain ⟨loan2, hfind2, _hcan2, _hpos2, hst2, hrp2⟩ :=
    submit_ok out1.1 lid uid amt none k2 out2 h2
  rw [hfind'] at hfind2
  injection hfind2 with hL2
  subst hL2
  have hlen : out1.1.repayments.length = st.repayments.length + 1 := by
    rw [hst]; simp
  refine ⟨out2, h2, ?_, ?_, ?_, ?_, ?_, ?_, ?_, ?_, ?_, ?_⟩
  · rw [hst2, hst]
    simp
  · rw [hrp2, hrp]
    simp only [hlen]
    omega
  · rw [hrp2, hrp]
    simpa using hk
  · rw [hrp]
  · rw [hrp2]
  · rw [hrp]
  · rw [hrp2]
  · rw [hrp]
  · rw [hrp2]
  · rw [hrp2, hrp]

/-- Witness: two identical 500-unit submissions on the witness loan both
succeed. -/
theorem submit_repayment_no_duplicate_protection_witness :
    ("repay_1_aa" : String) ≠ "repay_1_bb" ∧
    submit_repayment stRepay 1 2 500 none "repay_1_aa" = .ok wSubOut ∧
    ∃ out2, submit_repayment wSubOut.1 1 2 500 none "repay_1_bb" = .ok out2 ∧
      out2.1.repayments = stRepay.repayments ++ [wSubOut.2, out2.2] ∧
      wSubOut.2.id ≠ out2.2.id ∧
      wSubOut.2.idempotency_key ≠ out2.2.idempotency_key ∧
      wSubOut.2.status = RepaymentStatus.pending ∧
      out2.2.status = RepaymentStatus.pending ∧
      wSubOut.2.loan_id = 1 ∧ out2.2.loan_id = 1 ∧
      wSubOut.2.paid_by = 2 ∧ out2.2.paid_by = 2 ∧
      out2.2.amount = wSubOut.2.amount :=
  ⟨by decide, by rfl,
    submit_repayment_no_duplicate_protection stRepay 1 2 500 "repay_1_aa" "repay_1_bb"
      (by decide) wSubOut (by rfl)⟩

-- ============================================================
-- Frame lemmas
-- ============================================================

/-- `get_or_create_member_ledger` only ever writes the member-ledger table. -/
lemma gocml_frame (st : DBState) (wid uid : Nat) :
    (get_or_create_member_ledger st wid uid).2.groups = st.groups ∧
    (get_or_create_member_ledger st wid uid).2.wallets = st.wallets ∧
    (get_or_create_member_ledger st wid uid).2.transactions = st.transactions ∧
    (get_or_create_member_ledger st wid uid).2.contributions = st.contributions ∧
    (get_or_create_member_ledger st wid uid).2.members = st.members ∧
    (get_or_create_member_ledger st wid uid).2.loans = st.loans ∧
    (get_or_create_member_ledger st wid uid).2.repayments = st.repayments ∧
    (get_or_create_member_ledger st wid uid).2.emis = st.emis ∧
    (get_or_create_member_ledger st wid uid).2.snapshots = st.snapshots ∧
    (get_or_create_member_ledger st wid uid).2.distributions = st.distributions ∧
    (get_or_create_member_ledger st wid uid).2.approvals = st.approvals := by
  unfold get_or_create_member_ledger
  split <;> simp

/-- The ledger sum splits over appended entries. -/
lemma ledgerSum_append (a b : List WalletTransaction) (i : Nat) :
    ledgerSum (a ++ b) i = ledgerSum a i + ledgerSum b i := by
  simp [ledgerSum, List.filter_append]

/-- The ledger sum of one entry. -/
lemma ledgerSum_single (t : WalletTransaction) (i : Nat) :
    ledgerSum [t] i =
      if (t.wallet_id == i && !t.is_reversed) then t.amount else 0 := by
  by_cases hb : (t.wallet_id == i && !t.is_reversed) = true
  · simp [ledgerSum, List.filter_cons, hb]
  · simp [ledgerSum, List.filter_cons, hb]

/-- One distribution-loop iteration touches only the transaction,
member-ledger and distribution tables, and appends only zero-amount
ledger entries. -/
lemma distributeOne_frame (lid rid wid : Nat) (amt : Money) (aid : Nat)
    (keyf : Nat → String) (acc : DBState × List InterestDistribution)
    (snap : LoanContributionSnapshot) :
    (distributeOne lid rid wid amt aid keyf acc snap).1.groups = acc.1.groups ∧
    (distributeOne lid rid wid amt aid keyf acc snap).1.wallets = acc.1.wallets ∧
    (distributeOne lid rid wid amt aid keyf acc snap).1.contributions = acc.1.contributions ∧
    (distributeOne lid rid wid amt aid keyf acc snap).1.members = acc.1.members ∧
    (distributeOne lid rid wid amt aid keyf acc snap).1.loans = acc.1.loans ∧
    (distributeOne lid rid wid amt aid keyf acc snap).1.repayments = acc.1.repayments ∧
    (distributeOne lid rid wid amt aid keyf acc snap).1.emis = acc.1.emis ∧
    (distributeOne lid rid wid amt aid keyf acc snap).1.snapshots = acc.1.snapshots ∧
    (distributeOne lid rid wid amt aid keyf acc snap).1.approvals = acc.1.approvals ∧
    ∀ i, ledgerSum (distributeOne lid rid wid amt aid keyf acc snap).1.transactions i =
      ledgerSum acc.1.transactions i := by
  by_cases hle : snap.contribution_percentage / 100 * amt ≤ 0
  · simp [distributeOne, hle]
  · simp only [distributeOne, get_or_create_member_ledger, updateMemberLedger, hle,
      if_false, ite_false]
    split <;> simp [ledgerSum_append, ledgerSum_single]

/-- The whole distribution loop: same frame as each iteration. -/
lemma distributeFold_frame (lid rid wid : Nat) (amt : Money) (aid : Nat)
    (keyf : Nat → String) (snaps : List LoanContributionSnapshot) :
    ∀ acc : DBState × List InterestDistribution,
      (snaps.foldl (distributeOne lid rid wid amt aid keyf) acc).1.groups = acc.1.groups ∧
      (snaps.foldl (distributeOne lid rid wid amt aid keyf) acc).1.wallets = acc.1.wallets ∧
      (snaps.foldl (distributeOne lid rid wid amt aid keyf) acc).1.contributions = acc.1.contributions ∧
      (snaps.foldl (distributeOne lid rid wid amt aid keyf) acc).1.members = acc.1.members ∧
      (snaps.foldl (distributeOne lid rid wid amt aid keyf) acc).1.loans = acc.1.loans ∧
      (snaps.foldl (distributeOne lid rid wid amt aid keyf) acc).1.repayments = acc.1.repayments ∧
      (snaps.foldl (distributeOne lid rid wid amt aid keyf) acc).1.emis = acc.1.emis ∧
      (snaps.foldl (distributeOne lid rid wid amt aid keyf) acc).1.snapshots = acc.1.snapshots ∧
      (snaps.foldl (distributeOne lid rid wid amt aid keyf) acc).1.approvals = acc.1.approvals ∧
      ∀ i, ledgerSum (snaps.foldl (distributeOne lid rid wid amt aid keyf) acc).1.transactions i =
        ledgerSum acc.1.transactions i := by
  induction snaps with
  | nil => intro acc; simp
  | cons s rest ih =>
    intro acc
    simp only [List.foldl_cons]
    obtain ⟨g1, w1, c1, m1, l1, r1, e1, s1, a1, t1⟩ :=
      distributeOne_frame lid rid wid amt aid keyf acc s
    obtain ⟨g2, w2, c2, m2, l2, r2, e2, s2, a2, t2⟩ :=
      ih (distributeOne lid rid wid amt aid keyf acc s)
    exact ⟨g2.trans g1, w2.trans w1, c2.trans c1, m2.trans m1, l2.trans l1,
      r2.trans r1, e2.trans e1, s2.trans s1, a2.trans a1,
      fun i => (t2 i).trans (t1 i)⟩

/-- `distribute_interest_to_members` changes only the transaction (by
zero-amount entries), member-ledger and distribution tables. -/
lemma distribute_frame (st : DBState) (loan : LoanRequest) (rp : LoanRepayment)
    (wallet : GroupWallet) (amt : Money) (aid : Nat) (keyf : Nat → String) :
    (distribute_interest_to_members st loan rp wallet amt aid keyf).1.groups = st.groups ∧
    (distribute_interest_to_members st loan rp wallet amt aid keyf).1.wallets = st.wallets ∧
    (distribute_interest_to_members st loan rp wallet amt aid keyf).1.contributions = st.contributions ∧
    (distribute_interest_to_members st loan rp wallet amt aid keyf).1.members = st.members ∧
    (distribute_interest_to_members st loan rp wallet amt aid keyf).1.loans = st.loans ∧
    (distribute_interest_to_members st loan rp wallet amt aid keyf).1.repayments = st.repayments ∧
    (distribute_interest_to_members st loan rp wallet amt aid keyf).1.emis = st.emis ∧
    (distribute_interest_to_members st loan rp wallet amt aid keyf).1.snapshots = st.snapshots ∧
    (distribute_interest_to_members st loan rp wallet amt aid keyf).1.approvals = st.approvals ∧
    ∀ i, ledgerSum (distribute_interest_to_members st loan rp wallet amt aid keyf).1.transactions i =
      ledgerSum st.transactions i := by
  unfold distribute_interest_to_members
  exact distributeFold_frame loan.id rp.id wallet.id amt aid keyf
    (st.snapshots.filter (fun s => s.loan_id == loan.id)) (st, [])

@[simp] lemma gocml_groups (st : DBState) (wid uid : Nat) :
    (get_or_create_member_ledger st wid uid).2.groups = st.groups := by
  unfold get_or_create_member_ledger; split <;> rfl

@[simp] lemma gocml_wallets (st : DBState) (wid uid : Nat) :
    (get_or_create_member_ledger st wid uid).2.wallets = st.wallets := by
  unfold get_or_create_member_ledger; split <;> rfl

@[simp] lemma gocml_transactions (st : DBState) (wid uid : Nat) :
    (get_or_create_member_ledger st wid uid).2.transactions = st.transactions := by
  unfold get_or_create_member_ledger; split <;> rfl

@[simp] lemma gocml_contributions (st : DBState) (wid uid : Nat) :
    (get_or_create_member_ledger st wid uid).2.contributions = st.contributions := by
  unfold get_or_create_member_ledger; split <;> rfl

@[simp] lemma gocml_members (st : DBState) (wid uid : Nat) :
    (get_or_create_member_ledger st wid uid).2.members = st.members := by
  unfold get_or_create_member_ledger; split <;> rfl

@[simp] lemma gocml_loans (st : DBState) (wid uid : Nat) :
    (get_or_create_member_ledger st wid uid).2.loans = st.loans := by
  unfold get_or_create_member_ledger; split <;> rfl

@[simp] lemma gocml_repayments (st : DBState) (wid uid : Nat) :
    (get_or_create_member_ledger st wid uid).2.repayments = st.repayments := by
  unfold get_or_create_member_ledger; split <;> rfl

@[simp] lemma gocml_emis (st : DBState) (wid uid : Nat) :
    (get_or_create_member_ledger st wid uid).2.emis = st.emis := by
  unfold get_or_create_member_ledger; split <;> rfl

@[simp] lemma gocml_snapshots (st : DBState) (wid uid : Nat) :
    (get_or_create_member_ledger st wid uid).2.snapshots = st.snapshots := by
  unfold get_or_create_member_ledger; split <;> rfl

@[simp] lemma gocml_distributions (st : DBState) (wid uid : Nat) :
    (get_or_create_member_ledger st wid uid).2.distributions = st.distributions := by
  unfold get_or_create_member_ledger; split <;> rfl

@[simp] lemma gocml_approvals (st : DBState) (wid uid : Nat) :
    (get_or_create_member_ledger st wid uid).2.approvals = st.approvals := by
  unfold get_or_create_member_ledger; split <;> rfl

/-- `create_contribution_snapshot` writes only the snapshot table. -/
lemma ccs_frame (st : DBState) (lid bid wid : Nat) :
    (create_contribution_snapshot st lid bid wid).1.groups = st.groups ∧
    (create_contribution_snapshot st lid bid wid).1.wallets = st.wallets ∧
    (create_contribution_snapshot st lid bid wid).1.transactions = st.transactions ∧
    (create_contribution_snapshot st lid bid wid).1.contributions = st.contributions ∧
    (create_contribution_snapshot st lid bid wid).1.member_ledgers = st.member_ledgers ∧
    (create_contribution_snapshot st lid bid wid).1.members = st.members ∧
    (create_contribution_snapshot st lid bid wid).1.loans = st.loans ∧
    (create_contribution_snapshot st lid bid wid).1.repayments = st.repayments ∧
    (create_contribution_snapshot st lid bid wid).1.emis = st.emis ∧
    (create_contribution_snapshot st lid bid wid).1.distributions = st.distributions ∧
    (create_contribution_snapshot st lid bid wid).1.approvals = st.approvals := by
  simp only [create_contribution_snapshot]
  split
  · simp
  · split <;> simp

/-- The new state of `create_contribution_snapshot` appends exactly the
returned snapshot rows. -/
lemma ccs_snapshots (st : DBState) (lid bid wid : Nat) :
    (create_contribution_snapshot st lid bid wid).1.snapshots =
      st.snapshots ++ (create_contribution_snapshot st lid bid wid).2 := by
  simp only [create_contribution_snapshot]
  split
  · simp
  · split <;> simp

-- ============================================================
-- C8: insufficient balance aborts disbursement
-- ============================================================

/-- C8: for an approved, active loan whose disbursement amount exceeds the
wallet balance, `disburse_loan` (called by an active group admin) fails
with an error signalling the InsufficientBalance kind and never returns a
new state — so no ledger entry, snapshot or cache update happens and the
loan row of the input state still reads `approved`.  (An error return
models the Python rollback: the caller keeps the unchanged input state.) -/
theorem disburse_insufficient_balance_aborts
    (st : DBState) (lid aid : Nat) (k : String) (loan : LoanRequest) (w : GroupWallet)
    (hloan : findLoan st lid = some loan)
    (hact : loan.is_active = true)
    (hstatus : loan.status = LoanStatus.approved)
    (hadmin : is_group_admin st aid loan.group_id = true)
    (hw : findWalletByGroup st loan.group_id = some w)
    (hbal : w.balance < pyOr loan.approved_amount loan.amount) :
    disburse_loan st lid aid k = .error (.authDenied .insufficientBalance) ∧
    WalletErr.signalsInsufficientBalance (.authDenied .insufficientBalance) = true ∧
    (∀ out, disburse_loan st lid aid k ≠ .ok out) := by
  have hcd : can_disburse st aid lid = some .insufficientBalance := by
    unfold can_disburse
    rw [hloan]
    simp [hact, hstatus, hadmin, hw, hbal]
  have hmain : disburse_loan st lid aid k = .error (.authDenied .insufficientBalance) := by
    unfold disburse_loan
    rw [hloan, hcd]
  exact ⟨hmain, rfl, fun out hok => by rw [hmain] at hok; exact absurd hok (by simp)⟩

/-- An approved 50000 loan against a 10000 wallet, for the C8 witness. -/
def wLoanApprovedBig : LoanRequest :=
  { id := 1, group_id := 1, requested_by := 2, amount := 50000,
    status := LoanStatus.approved, total_eligible_voters := 2, required_approvals := 2,
    interest_rate := some 12, loan_duration_months := some 12,
    repayment_type := some RepaymentType.bullet, approved_amount := some 50000,
    total_interest := some 6000, total_repayable := some 56000, emi_amount := none,
    total_principal_repaid := 0, total_interest_repaid := 0, total_repaid := 0,
    is_active := true }

def stPoor : DBState :=
  { groups := [wGroup], wallets := [wWallet], transactions := [], contributions := [],
    member_ledgers := [⟨1, 1, 6000, 0, 6000⟩, ⟨1, 3, 4000, 0, 4000⟩],
    members := [wAdmin, wMemB, wMemC], loans := [wLoanApprovedBig], repayments := [],
    emis := [], snapshots := [], distributions := [], approvals := [] }

theorem disburse_insufficient_balance_aborts_witness :
    findLoan stPoor 1 = some wLoanApprovedBig ∧
    wWallet.balance < pyOr wLoanApprovedBig.approved_amount wLoanApprovedBig.amount ∧
    disburse_loan stPoor 1 1 "disburse_1_aa" =
      .error (.authDenied .insufficientBalance) :=
  ⟨by decide, by decide,
    (disburse_insufficient_balance_aborts stPoor 1 1 "disburse_1_aa" wLoanApprovedBig
      wWallet (by decide) (by decide) (by decide) (by decide) (by decide) (by decide)).1⟩

/-- Shape of a successful `contribute_to_wallet`. -/
lemma contribute_ok (st : DBState) (wid uid : Nat) (amt : Money) (k : String)
    (out : DBState × MemberContribution × WalletTransaction)
    (h : contribute_to_wallet st wid uid amt k = .ok out) :
    ∃ wallet, findWallet st wid = some wallet ∧
      can_contribute st uid wid = none ∧ 0 < amt ∧
      check_idempotency st k = none ∧
      out.2.2 = { id := st.transactions.length + 1, wallet_id := wid,
                  transaction_type := .contribution, amount := amt,
                  balance_after := some (wallet.balance + amt),
                  reference_id := some (st.contributions.length + 1), created_by := uid,
                  beneficiary_id := none, idempotency_key := k, is_reversed := false } ∧
      out.1.transactions = st.transactions ++ [out.2.2] ∧
      out.1.wallets = (st.wallets.map fun w => if w.id == wid then
          { w with balance := wallet.balance + amt,
                   total_contributed := w.total_contributed + amt,
                   is_dirty := false } else w) ∧
      out.1.groups = st.groups ∧
      out.1.members = st.members ∧
      out.1.loans = st.loans ∧
      out.1.repayments = st.repayments ∧
      out.1.emis = st.emis ∧
      out.1.snapshots = st.snapshots ∧
      out.1.distributions = st.distributions ∧
      out.1.approvals = st.approvals := by
  simp only [contribute_to_wallet] at h
  split at h
  · exact absurd h (by simp)
  next hpos =>
    split at h
    · exact absurd h (by simp)
    next wallet hfind =>
      split at h
      · exact absurd h (by simp)
      next hcan =>
        split at h
        · exact absurd h (by simp)
        next hidem =>
          injection h with h'
          subst h'
          refine ⟨wallet, hfind, hcan, by linarith, by simpa using hidem,
            rfl, ?_, ?_, ?_, ?_, ?_, ?_, ?_, ?_, ?_, ?_⟩ <;>
            simp [updateWallet, updateMemberLedger]

/-- Shape of a successful `disburse_loan`. -/
lemma disburse_ok (st : DBState) (lid aid : Nat) (k : String)
    (out : DBState × WalletTransaction)
    (h : disburse_loan st lid aid k = .ok out) :
    ∃ loan wallet, findLoan st lid = some loan ∧
      can_disburse st aid lid = none ∧
      check_idempotency st k = none ∧
      findWalletByGroup st loan.group_id = some wallet ∧
      ¬ wallet.balance < pyOr loan.approved_amount loan.amount ∧
      out.2 = { id := st.transactions.length + 1, wallet_id := wallet.id,
                transaction_type := .loanDisbursement,
                amount := -(pyOr loan.approved_amount loan.amount),
                balance_after := some (wallet.balance - pyOr loan.approved_amount loan.amount),
                reference_id := some loan.id, created_by := aid,
                beneficiary_id := some loan.requested_by,
                idempotency_key := k, is_reversed := false } ∧
      out.1.transactions = st.transactions ++ [out.2] ∧
      out.1.wallets = (st.wallets.map fun w => if w.id == wallet.id then
          { w with balance := wallet.balance - pyOr loan.approved_amount loan.amount,
                   total_disbursed := w.total_disbursed + pyOr loan.approved_amount loan.amount,
                   is_dirty := false } else w) ∧
      out.1.loans = (st.loans.map fun l => if l.id == lid then
          { l with status := LoanStatus.disbursed } else l) ∧
      out.1.snapshots = st.snapshots ++
        (create_contribution_snapshot st lid loan.requested_by wallet.id).2 ∧
      out.1.groups = st.groups ∧
      out.1.members = st.members ∧
      out.1.member_ledgers = st.member_ledgers ∧
      out.1.repayments = st.repayments ∧
      out.1.emis = st.emis ∧
      out.1.distributions = st.distributions ∧
      out.1.approvals = st.approvals := by
  simp only [disburse_loan] at h
  split at h
  · exact absurd h (by simp)
  next loan hfind =>
    split at h
    · exact absurd h (by simp)
    next hcan =>
      split at h
      · exact absurd h (by simp)
      next hidem =>
        split at h
        · exact absurd h (by simp)
        next wallet hw =>
          split at h
          · exact absurd h (by simp)
          next hbal =>
            injection h with h'
            subst h'
            obtain ⟨cg, cw, ct, cc, cml, cm, cl, cr, ce, cd, ca⟩ :=
              ccs_frame st lid loan.requested_by wallet.id
            refine ⟨loan, wallet, hfind, hcan, by simpa using hidem, hw, hbal,
              ?_, ?_, ?_, ?_, ?_, ?_, ?_, ?_, ?_, ?_, ?_⟩ <;>
              simp [updateWallet, updateLoan, ct, cw, cl, cg, cm, cml, cr, ce, cd, ca,
                ccs_snapshots]

-- ============================================================
-- C2: idempotency keys
-- ============================================================

/-- Number of ledger rows carrying a given idempotency key. -/
def countKey (st : DBState) (k : String) : Nat :=
  (st.transactions.filter (fun t => t.idempotency_key == k)).length

lemma countKey_zero_of_check_none (st : DBState) (k : String)
    (h : check_idempotency st k = none) : countKey st k = 0 := by
  unfold check_idempotency at h
  unfold countKey
  rw [List.find?_eq_none] at h
  rw [List.filter_eq_nil_iff.mpr h]
  rfl

lemma find?_wallet_map (ws : List GroupWallet) (f : GroupWallet → GroupWallet)
    (hid : ∀ w, (f w).id = w.id) (wid : Nat) :
    ((ws.map f).find? fun w => w.id == wid) =
      ((ws.find? fun w => w.id == wid).map f) := by
  have hp : ((fun w : GroupWallet => w.id == wid) ∘ f) =
      (fun w : GroupWallet => w.id == wid) := by
    funext w
    simp [Function.comp, hid]
  rw [List.find?_map, hp]

lemma find?_loan_map (ls : List LoanRequest) (f : LoanRequest → LoanRequest)
    (hid : ∀ l, (f l).id = l.id) (lid : Nat) :
    ((ls.map f).find? fun l => l.id == lid) =
      ((ls.find? fun l => l.id == lid).map f) := by
  have hp : ((fun l : LoanRequest => l.id == lid) ∘ f) =
      (fun l : LoanRequest => l.id == lid) := by
    funext l
    simp [Function.comp, hid]
  rw [List.find?_map, hp]

lemma is_group_member_congr (st st' : DBState) (uid gid : Nat)
    (h : st'.members = st.members) :
    is_group_member st' uid gid = is_group_member st uid gid := by
  unfold is_group_member
  rw [h]

lemma can_contribute_none_elim (st : DBState) (uid wid : Nat) (wallet : GroupWallet)
    (hfind : findWallet st wid = some wallet)
    (h : can_contribute st uid wid = none) :
    is_group_member st uid wallet.group_id = true := by
  unfold can_contribute at h
  rw [hfind] at h
  by_cases hm : is_group_member st uid wallet.group_id = true
  · exact hm
  · simp [hm] at h

lemma can_disburse_none_elim (st : DBState) (aid lid : Nat) (loan : LoanRequest)
    (hfind : findLoan st lid = some loan)
    (h : can_disburse st aid lid = none) :
    loan.is_active = true ∧ loan.status = LoanStatus.approved := by
  unfold can_disburse at h
  rw [hfind] at h
  by_cases h1 : loan.is_active = true
  · by_cases h2 : loan.status = LoanStatus.approved
    · exact ⟨h1, h2⟩
    · simp [h1, h2] at h
  · simp [h1] at h

/-- A used key can never again yield a successful contribution. -/
lemma contribute_key_used_no_ok (s : DBState) (wid' uid' : Nat) (amt' : Money)
    (k : String) (o : DBState × MemberContribution × WalletTransaction)
    (hk : check_idempotency s k ≠ none) :
    contribute_to_wallet s wid' uid' amt' k ≠ .ok o := by
  intro h
  obtain ⟨_, _, _, _, hid, _⟩ := contribute_ok s wid' uid' amt' k o h
  exact hk hid

/-- A used key can never again yield a successful disbursement. -/
lemma disburse_key_used_no_ok (s : DBState) (lid' aid' : Nat) (k : String)
    (o : DBState × WalletTransaction)
    (hk : check_idempotency s k ≠ none) :
    disburse_loan s lid' aid' k ≠ .ok o := by
  intro h
  obtain ⟨_, _, _, _, hid, _⟩ := disburse_ok s lid' aid' k o h
  exact hk hid

/-- An approved 3000 loan against the 10000 wallet. -/
def wLoanApproved : LoanRequest :=
  { id := 1, group_id := 1, requested_by := 2, amount := 3000,
    status := LoanStatus.approved, total_eligible_voters := 2, required_approvals := 2,
    interest_rate := some 12, loan_duration_months := some 12,
    repayment_type := some RepaymentType.bullet, approved_amount := some 3000,
    total_interest := some 360, total_repayable := some 3360, emi_amount := none,
    total_principal_repaid := 0, total_interest_repaid := 0, total_repaid := 0,
    is_active := true }

def stDisb : DBState :=
  { groups := [wGroup], wallets := [wWallet], transactions := [], contributions := [],
    member_ledgers := [⟨1, 1, 6000, 0, 6000⟩, ⟨1, 3, 4000, 0, 4000⟩],
    members := [wAdmin, wMemB, wMemC], loans := [wLoanApproved], repayments := [],
    emis := [], snapshots := [], distributions := [], approvals := [] }

def wDisbOut : DBState × WalletTransaction :=
  (disburse_loan stDisb 1 1 "disb_k1").toOption.getD
    (stDisb, ⟨0, 0, TxType.contribution, 0, none, none, 0, none, "", false⟩)

/-- C2 counterexample: replaying `disburse_loan` for the same loan with the
used key is rejected by the status precondition (checked before the
idempotency lookup), so it raises the state error, not
`DuplicateTransaction` — refuting the claimed error type for disbursement
replays.  No second ledger entry is created either way. -/
instance instDecEqExcept {ε α : Type} [DecidableEq ε] [DecidableEq α] :
    DecidableEq (Except ε α) := fun x y =>
  match x, y with
  | .ok a, .ok b =>
    if h : a = b then .isTrue (by rw [h])
    else .isFalse (fun hh => by cases hh; exact h rfl)
  | .error a, .error b =>
    if h : a = b then .isTrue (by rw [h])
    else .isFalse (fun hh => by cases hh; exact h rfl)
  | .ok _, .error _ => .isFalse (fun hh => by cases hh)
  | .error _, .ok _ => .isFalse (fun hh => by cases hh)

theorem disburse_replay_not_duplicate :
    disburse_loan stDisb 1 1 "disb_k1" = .ok wDisbOut ∧
    countKey wDisbOut.1 "disb_k1" = 1 ∧
    disburse_loan wDisbOut.1 1 1 "disb_k1" =
      .error (.authDenied (.wrongStatusForDisburse .disbursed)) ∧
    disburse_loan wDisbOut.1 1 1 "disb_k1" ≠
      .error .duplicateTransaction := by
  refine ⟨by rfl, by decide, by decide, by decide⟩

/-- C2 (amended): after a first successful `contribute_to_wallet` with key
`k`, exactly one ledger row carries `k`; an identical replay raises
`DuplicateTransaction`, and no later `contribute_to_wallet` or
`disburse_loan` call with key `k` can ever succeed (so no second entry
with `k` is ever created).  After a successful `disburse_loan` with key
`kd`, exactly one ledger row carries `kd` and no later call with `kd`
succeeds either — but a replay for the same loan is rejected by the
status precondition (loan no longer `approved`), which fires before the
idempotency lookup, instead of raising `DuplicateTransaction`. -/
theorem idempotency_single_entry
    (st : DBState) (wid uid : Nat) (amt : Money) (k : String)
    (outc : DBState × MemberContribution × WalletTransaction)
    (hc : contribute_to_wallet st wid uid amt k = .ok outc)
    (std : DBState) (lid aid : Nat) (kd : String)
    (outd : DBState × WalletTransaction)
    (hd : disburse_loan std lid aid kd = .ok outd) :
    countKey outc.1 k = 1 ∧
    contribute_to_wallet outc.1 wid uid amt k = .error .duplicateTransaction ∧
    (∀ wid' uid' amt' o, contribute_to_wallet outc.1 wid' uid' amt' k ≠ .ok o) ∧
    (∀ lid' aid' o, disburse_loan outc.1 lid' aid' k ≠ .ok o) ∧
    countKey outd.1 kd = 1 ∧
    disburse_loan outd.1 lid aid kd =
      .error (.authDenied (.wrongStatusForDisburse .disbursed)) ∧
    (∀ wid' uid' amt' o, contribute_to_wallet outd.1 wid' uid' amt' kd ≠ .ok o) ∧
    (∀ lid' aid' o, disburse_loan outd.1 lid' aid' kd ≠ .ok o) := by
  obtain ⟨wallet, hfind, hcan, hpos, hidem, htxn, htr, hws, _hg, hm, _hl, _hr, _he,
    _hs, _hd2, _ha⟩ := contribute_ok st wid uid amt k outc hc
  obtain ⟨loan, dwallet, dhfind, dhcan, dhidem, _dhw, _dhbal, dhtxn, dhtr, _dhws,
    dhls, _dhsn, _dhg, _dhm, _dhml, _dhr, _dhe, _dhd, _dha⟩ :=
    disburse_ok std lid aid kd outd hd
  have hkey1 : countKey outc.1 k = 1 := by
    unfold countKey
    rw [htr, List.filter_append, List.length_append,
      show (st.transactions.filter fun t => t.idempotency_key == k) = [] from
        List.filter_eq_nil_iff.mpr (List.find?_eq_none.mp hidem)]
    rw [htxn]
    simp
  have hcheck_c : check_idempotency outc.1 k ≠ none := by
    unfold check_idempotency
    rw [htr, List.find?_append]
    unfold check_idempotency at hidem
    rw [hidem, htxn]
    simp
  have dkey1 : countKey outd.1 kd = 1 := by
    unfold countKey
    rw [dhtr, List.filter_append, List.length_append,
      show (std.transactions.filter fun t => t.idempotency_key == kd) = [] from
        List.filter_eq_nil_iff.mpr (List.find?_eq_none.mp dhidem)]
    rw [dhtxn]
    simp
  have dcheck : check_idempotency outd.1 kd ≠ none := by
    unfold check_idempotency
    rw [dhtr, List.find?_append]
    unfold check_idempotency at dhidem
    rw [dhidem, dhtxn]
    simp
  have hreplay : contribute_to_wallet outc.1 wid uid amt k = .error .duplicateTransaction := by
    have hfw : findWallet outc.1 wid =
        some { wallet with
          balance := wallet.balance + amt
          total_contributed := wallet.total_contributed + amt
          is_dirty := false } := by
      unfold findWallet
      rw [hws, find?_wallet_map _ _ (fun w => by split <;> rfl)]
      unfold findWallet at hfind
      rw [hfind]
      have hid := List.find?_some hfind
      have hid' : wallet.id = wid := by simpa using hid
      simp [hid']
    have hmem : is_group_member outc.1 uid wallet.group_id = true := by
      rw [is_group_member_congr st outc.1 uid wallet.group_id hm]
      exact can_contribute_none_elim st uid wid wallet hfind hcan
    have hcc : can_contribute outc.1 uid wid = none := by
      unfold can_contribute
      rw [hfw]
      simpa using hmem
    have hsome : (check_idempotency outc.1 k).isSome = true := by
      rcases hck : check_idempotency outc.1 k with _ | t
      · exact absurd hck hcheck_c
      · rfl
    have hnle : ¬ amt ≤ 0 := not_le.mpr hpos
    simp [contribute_to_wallet, hfw, hcc, hsome, hnle]
  have dreplay : disburse_loan outd.1 lid aid kd =
      .error (.authDenied (.wrongStatusForDisburse .disbursed)) := by
    obtain ⟨hact, _hstat⟩ := can_disburse_none_elim std aid lid loan dhfind dhcan
    have hfl : findLoan outd.1 lid = some { loan with status := LoanStatus.disbursed } := by
      unfold findLoan
      rw [dhls, find?_loan_map _ _ (fun l => by split <;> rfl)]
      unfold findLoan at dhfind
      rw [dhfind]
      have hid := List.find?_some dhfind
      have hid' : loan.id = lid := by simpa using hid
      simp [hid']
    have hcd : can_disburse outd.1 aid lid =
        some (.wrongStatusForDisburse LoanStatus.disbursed) := by
      simp [can_disburse, hfl, hact]
    simp [disburse_loan, hfl, hcd]
  exact ⟨hkey1, hreplay,
    fun wid' uid' amt' o => contribute_key_used_no_ok outc.1 wid' uid' amt' k o hcheck_c,
    fun lid' aid' o => disburse_key_used_no_ok outc.1 lid' aid' k o hcheck_c,
    dkey1, dreplay,
    fun wid' uid' amt' o => contribute_key_used_no_ok outd.1 wid' uid' amt' kd o dcheck,
    fun lid' aid' o => disburse_key_used_no_ok outd.1 lid' aid' kd o dcheck⟩

def wContribOut : DBState × MemberContribution × WalletTransaction :=
  (contribute_to_wallet stDisb 1 3 500 "contrib_k9").toOption.getD
    (stDisb, ⟨0, 0, 0, 0, none⟩,
      ⟨0, 0, TxType.contribution, 0, none, none, 0, none, "", false⟩)

theorem idempotency_single_entry_witness :
    contribute_to_wallet stDisb 1 3 500 "contrib_k9" = .ok wContribOut ∧
    disburse_loan stDisb 1 1 "disb_k1" = .ok wDisbOut ∧
    countKey wContribOut.1 "contrib_k9" = 1 ∧
    contribute_to_wallet wContribOut.1 1 3 500 "contrib_k9" =
      .error .duplicateTransaction := by
  exact ⟨by rfl, by rfl, (idempotency_single_entry stDisb 1 3 500 "contrib_k9"
      wContribOut (by rfl) stDisb 1 1 "disb_k1" wDisbOut (by rfl)).1,
    (idempotency_single_entry stDisb 1 3 500 "contrib_k9" wContribOut (by rfl)
      stDisb 1 1 "disb_k1" wDisbOut (by rfl)).2.1⟩

-- ============================================================
-- C6: interest exclusion of the borrower
-- ============================================================

/-- Each loop iteration only appends distributions for its own snapshot's
user, and only touches member-ledger rows of that user. -/
lemma distributeOne_beneficiaries (lid rid wid : Nat) (amt : Money) (aid : Nat)
    (keyf : Nat → String) (acc : DBState × List InterestDistribution)
    (snap : LoanContributionSnapshot) :
    (∀ d ∈ (distributeOne lid rid wid amt aid keyf acc snap).2,
      d ∈ acc.2 ∨ d.beneficiary_id = snap.user_id) ∧
    (∀ ml ∈ (distributeOne lid rid wid amt aid keyf acc snap).1.member_ledgers,
      ml ∈ acc.1.member_ledgers ∨ ml.user_id = snap.user_id) := by
  by_cases hle : snap.contribution_percentage / 100 * amt ≤ 0
  · constructor <;> intro x hx <;> left <;> simpa [distributeOne, hle] using hx
  · simp only [distributeOne, get_or_create_member_ledger, updateMemberLedger, hle,
      if_false, ite_false]
    split
    · constructor
      · intro d hd
        rcases List.mem_append.mp hd with h | h
        · exact Or.inl h
        · right
          rw [List.mem_singleton.mp h]
      · intro ml hml
        obtain ⟨l, hl, rfl⟩ := List.mem_map.mp hml
        by_cases hc : (l.wallet_id == wid && l.user_id == snap.user_id) = true
        · simp only [hc, if_true]
          right
          have := (Bool.and_eq_true _ _).mp hc
          simpa using this.2
        · simp only [hc, if_false]
          exact Or.inl hl
    · constructor
      · intro d hd
        rcases List.mem_append.mp hd with h | h
        · exact Or.inl h
        · right
          rw [List.mem_singleton.mp h]
      · intro ml hml
        obtain ⟨l, hl0, rfl⟩ := List.mem_map.mp hml
        rcases List.mem_append.mp hl0 with hl | hl
        · by_cases hc : (l.wallet_id == wid && l.user_id == snap.user_id) = true
          · simp only [hc, if_true]
            right
            have := (Bool.and_eq_true _ _).mp hc
            simpa using this.2
          · simp only [hc, if_false]
            exact Or.inl hl
        · right
          rw [List.mem_singleton.mp hl]
          split <;> rfl

/-- Folding the loop: every produced distribution's beneficiary and every
touched member-ledger row belongs to one of the iterated snapshots. -/
lemma distributeFold_beneficiaries (lid rid wid : Nat) (amt : Money) (aid : Nat)
    (keyf : Nat → String) (snaps : List LoanContributionSnapshot) :
    ∀ acc : DBState × List InterestDistribution,
      (∀ d ∈ (snaps.foldl (distributeOne lid rid wid amt aid keyf) acc).2,
        d ∈ acc.2 ∨ ∃ s ∈ snaps, d.beneficiary_id = s.user_id) ∧
      (∀ ml ∈ (snaps.foldl (distributeOne lid rid wid amt aid keyf) acc).1.member_ledgers,
        ml ∈ acc.1.member_ledgers ∨ ∃ s ∈ snaps, ml.user_id = s.user_id) := by
  induction snaps with
  | nil => intro acc; simp
  | cons s rest ih =>
    intro acc
    simp only [List.foldl_cons]
    obtain ⟨hd1, hm1⟩ := distributeOne_beneficiaries lid rid wid amt aid keyf acc s
    obtain ⟨hd2, hm2⟩ := ih (distributeOne lid rid wid amt aid keyf acc s)
    constructor
    · intro d hd
      rcases hd2 d hd with h | ⟨s', hs', he⟩
      · rcases hd1 d h with h' | h'
        · exact Or.inl h'
        · exact Or.inr ⟨s, by simp, h'⟩
      · exact Or.inr ⟨s', by simp [hs'], he⟩
    · intro ml hml
      rcases hm2 ml hml with h | ⟨s', hs', he⟩
      · rcases hm1 ml h with h' | h'
        · exact Or.inl h'
        · exact Or.inr ⟨s, by simp, h'⟩
      · exact Or.inr ⟨s', by simp [hs'], he⟩

/-- C6: the contribution snapshot taken at disbursement never contains the
borrower; every interest distribution and member-ledger interest credit of
the repayment loop has its beneficiary drawn from the loan's frozen
snapshots, so when those snapshots exclude a user (the borrower), that
user is never credited; with no snapshots nothing is distributed and the
state is untouched. -/
theorem interest_excludes_borrower (st : DBState) (lid bid wid : Nat)
    (loan : LoanRequest) (rp : LoanRepayment) (wallet : GroupWallet)
    (amt : Money) (aid : Nat) (keyf : Nat → String) :
    (∀ s ∈ (create_contribution_snapshot st lid bid wid).2, s.user_id ≠ bid) ∧
    (∀ d ∈ (distribute_interest_to_members st loan rp wallet amt aid keyf).2,
      ∃ s ∈ st.snapshots, s.loan_id = loan.id ∧ d.beneficiary_id = s.user_id) ∧
    (st.snapshots.filter (fun s => s.loan_id == loan.id) = [] →
      distribute_interest_to_members st loan rp wallet amt aid keyf = (st, [])) ∧
    ((∀ s ∈ st.snapshots, s.loan_id = loan.id → s.user_id ≠ bid) →
      (∀ d ∈ (distribute_interest_to_members st loan rp wallet amt aid keyf).2,
        d.beneficiary_id ≠ bid) ∧
      (∀ ml ∈ (distribute_interest_to_members st loan rp wallet amt aid keyf).1.member_ledgers,
        ml.user_id = bid → ml ∈ st.member_ledgers)) := by
  have hsnap : ∀ s ∈ (create_contribution_snapshot st lid bid wid).2, s.user_id ≠ bid := by
    intro s hs
    simp only [create_contribution_snapshot] at hs
    split at hs
    · exact absurd hs (by simp)
    · split at hs
      · exact absurd hs (by simp)
      · simp only [List.mem_map] at hs
        obtain ⟨l, hl, rfl⟩ := hs
        have := List.of_mem_filter hl
        have h2 := (Bool.and_eq_true _ _).mp ((Bool.and_eq_true _ _).mp this).1
        simpa using h2.2
  have hfold := distributeFold_beneficiaries loan.id rp.id wallet.id amt aid keyf
    (st.snapshots.filter (fun s => s.loan_id == loan.id)) (st, [])
  refine ⟨hsnap, ?_, ?_, ?_⟩
  · intro d hd
    rcases hfold.1 d hd with h | ⟨s, hs, he⟩
    · exact absurd h (by simp)
    · have hmem := List.mem_of_mem_filter hs
      have hlid : s.loan_id = loan.id := by simpa using List.of_mem_filter hs
      exact ⟨s, hmem, hlid, he⟩
  · intro hempty
    unfold distribute_interest_to_members
    rw [hempty]
    rfl
  · intro hb
    constructor
    · intro d hd
      rcases hfold.1 d hd with h | ⟨s, hs, he⟩
      · exact absurd h (by simp)
      · have hmem := List.mem_of_mem_filter hs
        have hlid : s.loan_id = loan.id := by simpa using List.of_mem_filter hs
        rw [he]
        exact hb s hmem hlid
    · intro ml hml hbid
      rcases hfold.2 ml hml with h | ⟨s, hs, he⟩
      · exact h
      · have hmem := List.mem_of_mem_filter hs
        have hlid : s.loan_id = loan.id := by simpa using List.of_mem_filter hs
        exact absurd (hbid ▸ he) (Ne.symm (hb s hmem hlid))

theorem interest_excludes_borrower_witness :
    (∀ s ∈ (create_contribution_snapshot stRepay 1 2 1).2, s.user_id ≠ 2) ∧
    (stRepay.snapshots.filter (fun s => s.loan_id == wLoanDisbursed.id) = [] →
      distribute_interest_to_members stRepay wLoanDisbursed wSubOut.2 wWallet 100 1
        (fun _ => "ik") = (stRepay, [])) :=
  ⟨(interest_excludes_borrower stRepay 1 2 1 wLoanDisbursed wSubOut.2 wWallet 100 1
      (fun _ => "ik")).1,
   (interest_excludes_borrower stRepay 1 2 1 wLoanDisbursed wSubOut.2 wWallet 100 1
      (fun _ => "ik")).2.2.1⟩

-- ============================================================
-- C9: repayment approval completes the loan
-- ============================================================

/-- Shape of a successful `approve_repayment` (the components the claims
need: wallet cache, ledger sums, loan rows and frame). -/
lemma approve_ok (st : DBState) (rid aid : Nat) (fk : String) (ik : Nat → String)
    (out : DBState × WalletTransaction × List InterestDistribution)
    (h : approve_repayment st rid aid fk ik = .ok out) :
    ∃ rp loan wallet threshold,
      findRepayment st rid = some rp ∧
      can_approve_repayment st aid rid = none ∧
      findLoan st rp.loan_id = some loan ∧
      findWalletByGroup st loan.group_id = some wallet ∧
      (if pyTruthy loan.total_repayable then loan.total_repayable
        else loan.approved_amount) = some threshold ∧
      out.1.wallets = (st.wallets.map fun w => if w.id == wallet.id then
        { w with balance := wallet.balance + rp.amount,
                 total_interest_earned := w.total_interest_earned + rp.interest_component,
                 is_dirty := false } else w) ∧
      (∀ i, ledgerSum out.1.transactions i =
        ledgerSum st.transactions i + (if (wallet.id == i) then rp.amount else 0)) ∧
      out.1.loans = (if threshold ≤ loan.total_repaid + rp.amount then
          ((st.loans.map fun l => if l.id == loan.id then
              { l with total_principal_repaid := l.total_principal_repaid + rp.principal_component,
                       total_interest_repaid := l.total_interest_repaid + rp.interest_component,
                       total_repaid := l.total_repaid + rp.amount } else l).map
            fun l => if l.id == loan.id then
              { l with status := LoanStatus.completed } else l)
        else (st.loans.map fun l => if l.id == loan.id then
              { l with total_principal_repaid := l.total_principal_repaid + rp.principal_component,
                       total_interest_repaid := l.total_interest_repaid + rp.interest_component,
                       total_repaid := l.total_repaid + rp.amount } else l)) ∧
      out.1.members = st.members ∧
      out.1.groups = st.groups := by
  simp only [approve_repayment] at h
  split at h
  · exact absurd h (by simp)
  next rp hrp =>
    split at h
    · exact absurd h (by simp)
    next hcan =>
      split at h
      · exact absurd h (by simp)
      next loan hloan =>
        split at h
        · exact absurd h (by simp)
        next wallet hw =>
          split at h
          · exact absurd h (by simp)
          next threshold hth =>
            injection h with h'
            subst h'
            have hw5 : ∀ (X : DBState),
                ((if 0 < rp.interest_component then
                  distribute_interest_to_members X loan rp wallet rp.interest_component aid ik
                 else (X, [])).1).wallets = X.wallets := by
              intro X
              split
              · exact (distribute_frame X loan rp wallet rp.interest_component aid ik).2.1
              · rfl
            have hl5 : ∀ (X : DBState),
                ((if 0 < rp.interest_component then
                  distribute_interest_to_members X loan rp wallet rp.interest_component aid ik
                 else (X, [])).1).loans = X.loans := by
              intro X
              split
              · exact (distribute_frame X loan rp wallet rp.interest_component aid ik).2.2.2.2.1
              · rfl
            have hm5 : ∀ (X : DBState),
                ((if 0 < rp.interest_component then
                  distribute_interest_to_members X loan rp wallet rp.interest_component aid ik
                 else (X, [])).1).members = X.members := by
              intro X
              split
              · exact (distribute_frame X loan rp wallet rp.interest_component aid ik).2.2.2.1
              · rfl
            have hg5 : ∀ (X : DBState),
                ((if 0 < rp.interest_component then
                  distribute_interest_to_members X loan rp wallet rp.interest_component aid ik
                 else (X, [])).1).groups = X.groups := by
              intro X
              split
              · exact (distribute_frame X loan rp wallet rp.interest_component aid ik).1
              · rfl
            have ht5 : ∀ (X : DBState) (i : Nat),
                ledgerSum ((if 0 < rp.interest_component then
                  distribute_interest_to_members X loan rp wallet rp.interest_component aid ik
                 else (X, [])).1).transactions i = ledgerSum X.transactions i := by
              intro X i
              split
              · exact (distribute_frame X loan rp wallet rp.interest_component aid ik).2.2.2.2.2.2.2.2.2 i
              · rfl
            refine ⟨rp, loan, wallet, threshold, hrp, hcan, hloan, hw, hth, ?_, ?_, ?_, ?_, ?_⟩
            · -- wallets
              rcases hemi : rp.emi_schedule_id with _ | eid <;>
                simp only [hemi, updateEmi, updateWallet, updateLoan, updateRepayment,
                  apply_ite (fun s : DBState => s.wallets), hw5] <;>
                split <;> simp [hw5]
            · -- ledger sums
              intro i
              rcases hemi : rp.emi_schedule_id with _ | eid <;>
                simp only [hemi, updateEmi, updateWallet, updateLoan, updateRepayment,
                  apply_ite (fun s : DBState => ledgerSum s.transactions i)] <;>
                split <;>
                simp [ht5, ledgerSum_append, ledgerSum_single]
            · -- loans
              rcases hemi : rp.emi_schedule_id with _ | eid <;>
                simp only [hemi, updateEmi, updateWallet, updateLoan, updateRepayment,
                  apply_ite (fun s : DBState => s.loans), hl5] <;>
                split <;> simp [hl5]
            · -- members
              rcases hemi : rp.emi_schedule_id with _ | eid <;>
                simp only [hemi, updateEmi, updateWallet, updateLoan, updateRepayment,
                  apply_ite (fun s : DBState => s.members), hm5] <;>
                split <;> simp [hm5]
            · -- groups
              rcases hemi : rp.emi_schedule_id with _ | eid <;>
                simp only [hemi, updateEmi, updateWallet, updateLoan, updateRepayment,
                  apply_ite (fun s : DBState => s.groups), hg5] <;>
                split <;> simp [hg5]

/-- C9: when approving a pending repayment makes `total_repaid` reach or
exceed `total_repayable`, `approve_repayment` sets the loan's status to
`completed` in that same step, and afterwards `can_repay` denies every
user, so no further repayment can be submitted on the loan. -/
theorem repayment_completion (st : DBState) (rid aid : Nat) (fk : String)
    (ik : Nat → String) (out : DBState × WalletTransaction × List InterestDistribution)
    (rp : LoanRepayment) (loan : LoanRequest)
    (hrp : findRepayment st rid = some rp)
    (hloan : findLoan st rp.loan_id = some loan)
    (htr : pyTruthy loan.total_repayable = true)
    (hreach : loan.total_repayable.getD 0 ≤ loan.total_repaid + rp.amount)
    (h : approve_repayment st rid aid fk ik = .ok out) :
    ∃ loan', findLoan out.1 rp.loan_id = some loan' ∧
      loan'.status = LoanStatus.completed ∧
      loan'.total_repaid = loan.total_repaid + rp.amount ∧
      (∀ u, can_repay out.1 u rp.loan_id ≠ none) := by
  obtain ⟨rp', loan', wallet, threshold, hrp', hcan', hloan', hw', hth', _hws, _hsum,
    hls, _hm, _hg⟩ := approve_ok st rid aid fk ik out h
  rw [hrp] at hrp'
  injection hrp' with hR
  subst hR
  rw [hloan] at hloan'
  injection hloan' with hL
  subst hL
  have hthv : loan.total_repayable = some threshold := by
    rw [htr] at hth'
    simpa using hth'
  have hthr : threshold ≤ loan.total_repaid + rp.amount := by
    have : loan.total_repayable.getD 0 = threshold := by rw [hthv]; rfl
    rw [this] at hreach
    exact hreach
  rw [if_pos hthr] at hls
  have hlid : loan.id = rp.loan_id := by
    simpa using List.find?_some hloan
  have hfl : findLoan out.1 rp.loan_id =
      some { loan with
        total_principal_repaid := loan.total_principal_repaid + rp.principal_component
        total_interest_repaid := loan.total_interest_repaid + rp.interest_component
        total_repaid := loan.total_repaid + rp.amount
        status := LoanStatus.completed } := by
    unfold findLoan
    rw [hls]
    rw [find?_loan_map _ _ (fun l => by split <;> rfl)]
    rw [find?_loan_map _ _ (fun l => by split <;> rfl)]
    unfold findLoan at hloan
    rw [hloan]
    have hid : (loan.id == rp.loan_id) = true := by simpa using hlid
    simp [hid]
  refine ⟨_, hfl, rfl, rfl, ?_⟩
  intro u
  simp [can_repay, hfl]

/-- A pending 1120 repayment that fully repays the witness loan. -/
def wRepayPending : LoanRepayment :=
  { id := 1, loan_id := 1, paid_by := 2, amount := 1120,
    principal_component := 1000, interest_component := 120,
    emi_schedule_id := none, status := RepaymentStatus.pending,
    transaction_id := none, idempotency_key := "repay_1_cc" }

def stApprove : DBState :=
  { stRepay with
    repayments := [wRepayPending]
    snapshots := [⟨1, 1, 6000, 60, 10000⟩, ⟨1, 3, 4000, 40, 10000⟩] }

def wAppOut : DBState × WalletTransaction × List InterestDistribution :=
  (approve_repayment stApprove 1 1 "repay_approve_1_x" (fun u => "interest_1_" ++ toString u)).toOption.getD
    (stApprove, ⟨0, 0, TxType.contribution, 0, none, none, 0, none, "", false⟩, [])

theorem repayment_completion_witness :
    approve_repayment stApprove 1 1 "repay_approve_1_x"
      (fun u => "interest_1_" ++ toString u) = .ok wAppOut ∧
    pyTruthy wLoanDisbursed.total_repayable = true ∧
    wLoanDisbursed.total_repayable.getD 0 ≤
      wLoanDisbursed.total_repaid + wRepayPending.amount ∧
    ∃ loan', findLoan wAppOut.1 wRepayPending.loan_id = some loan' ∧
      loan'.status = LoanStatus.completed ∧
      loan'.total_repaid = wLoanDisbursed.total_repaid + wRepayPending.amount ∧
      (∀ u, can_repay wAppOut.1 u wRepayPending.loan_id ≠ none) :=
  ⟨by rfl, by decide, by decide,
    repayment_completion stApprove 1 1 "repay_approve_1_x"
      (fun u => "interest_1_" ++ toString u) wAppOut wRepayPending wLoanDisbursed
      (by decide) (by decide) (by decide) (by decide) (by rfl)⟩

-- ============================================================
-- C3: loan creation freezes the quorum
-- ============================================================

/-- C3: with `m` active members, `create_loan_request` (called by an
active member on a group with a wallet, with a positive whole amount)
freezes `total_eligible_voters = m - 1` and
`required_approvals = (m-1)/2 + 1` on the new pending loan, and raises a
`LoanError` (creating no loan) whenever `m - 1 < 1`, the amount exceeds
the wallet balance, or the requester already has an active pending loan;
2 eligible voters need 2 approvals and 1 eligible voter needs 1. -/
theorem create_loan_request_spec (st : DBState) (gid uid : Nat) (amt : Money)
    (g : Group) (w : GroupWallet)
    (hg : findGroup st gid = some g)
    (hw : findWalletByGroup st gid = some w)
    (hmem : is_group_member st uid gid = true)
    (hpos : 0 < amt) (hwhole : isWhole amt = true) :
    ((activeMemberCount st gid - 1 < 1 ∨ w.balance < amt ∨
        (st.loans.find? (fun l => l.group_id == gid && l.requested_by == uid &&
          l.status == LoanStatus.pending && l.is_active)).isSome = true) →
      ∃ e, create_loan_request st gid uid amt = .error e ∧ e.isLoanError = true) ∧
    (¬ activeMemberCount st gid - 1 < 1 → ¬ w.balance < amt →
      (st.loans.find? (fun l => l.group_id == gid && l.requested_by == uid &&
        l.status == LoanStatus.pending && l.is_active)).isSome = false →
      ∃ loan, create_loan_request st gid uid amt =
          .ok ({ st with loans := st.loans ++ [loan] }, loan) ∧
        loan.total_eligible_voters = activeMemberCount st gid - 1 ∧
        loan.required_approvals = (activeMemberCount st gid - 1) / 2 + 1 ∧
        loan.status = LoanStatus.pending ∧
        (activeMemberCount st gid - 1 = 2 → loan.required_approvals = 2) ∧
        (activeMemberCount st gid - 1 = 1 → loan.required_approvals = 1)) := by
  have hnle : ¬ amt ≤ 0 := not_le.mpr hpos
  constructor
  · intro hfail
    by_cases hbal : w.balance < amt
    · exact ⟨.insufficientFunds, by simp [create_loan_request, hg, hw, hmem, hbal,
        hnle, hwhole], rfl⟩
    · by_cases hpend : (st.loans.find? (fun l => l.group_id == gid &&
          l.requested_by == uid && l.status == LoanStatus.pending && l.is_active)).isSome = true
      · exact ⟨.alreadyPendingLoan, by simp [create_loan_request, hg, hw, hmem, hbal,
          hpend, hnle, hwhole], rfl⟩
      · have hlt : activeMemberCount st gid - 1 < 1 := by
          rcases hfail with h | h | h
          · exact h
          · exact absurd h hbal
          · exact absurd h hpend
        exact ⟨.notEnoughMembers, by simp [create_loan_request, hg, hw, hmem, hbal,
          hpend, hnle, hwhole, hlt], rfl⟩
  · intro hv hbal hpend
    refine ⟨{ id := st.loans.length + 1, group_id := gid, requested_by := uid,
              amount := amt, status := .pending,
              total_eligible_voters := activeMemberCount st gid - 1,
              required_approvals := (activeMemberCount st gid - 1) / 2 + 1,
              interest_rate := none, loan_duration_months := none,
              repayment_type := none, approved_amount := none, total_interest := none,
              total_repayable := none, emi_amount := none, total_principal_repaid := 0,
              total_interest_repaid := 0, total_repaid := 0,
              is_active := true }, ?_, rfl, rfl, rfl, ?_, ?_⟩
    · simp [create_loan_request, hg, hw, hmem, hbal, hpend, hnle, hwhole, hv]
    · intro h2; simp [h2]
    · intro h1; simp [h1]

theorem create_loan_request_spec_witness :
    is_group_member stDisb 3 1 = true ∧ 0 < (2000 : Money) ∧
    isWhole 2000 = true ∧ ¬ activeMemberCount stDisb 1 - 1 < 1 ∧
    ∃ loan, create_loan_request stDisb 1 3 2000 =
        .ok ({ stDisb with loans := stDisb.loans ++ [loan] }, loan) ∧
      loan.total_eligible_voters = activeMemberCount stDisb 1 - 1 ∧
      loan.required_approvals = (activeMemberCount stDisb 1 - 1) / 2 + 1 ∧
      loan.status = LoanStatus.pending ∧
      (activeMemberCount stDisb 1 - 1 = 2 → loan.required_approvals = 2) ∧
      (activeMemberCount stDisb 1 - 1 = 1 → loan.required_approvals = 1) :=
  ⟨by decide, by norm_num, by decide, by decide,
    (create_loan_request_spec stDisb 1 3 2000 wGroup wWallet (by decide) (by decide)
      (by decide) (by norm_num) (by decide)).2 (by decide) (by decide) (by decide)⟩

-- ============================================================
-- C4: vote tallying with the effective quorum
-- ============================================================

/-- A pending loan frozen at 2 eligible voters (members: requester 1,
voter 2 who has since left, admin 3). -/
def wLoanPendingV : LoanRequest :=
  { id := 1, group_id := 1, requested_by := 1, amount := 1000,
    status := LoanStatus.pending, total_eligible_voters := 2, required_approvals := 2,
    interest_rate := none, loan_duration_months := none, repayment_type := none,
    approved_amount := none, total_interest := none, total_repayable := none,
    emi_amount := none, total_principal_repaid := 0, total_interest_repaid := 0,
    total_repaid := 0, is_active := true }

def stVote : DBState :=
  { groups := [wGroup], wallets := [wWallet], transactions := [], contributions := [],
    member_ledgers := [⟨1, 1, 6000, 0, 6000⟩, ⟨1, 3, 4000, 0, 4000⟩],
    members := [⟨1, 1, MemberRole.member, true⟩, ⟨1, 2, MemberRole.member, false⟩,
      ⟨1, 3, MemberRole.admin, true⟩],
    loans := [wLoanPendingV], repayments := [], emis := [], snapshots := [],
    distributions := [], approvals := [⟨1, 2, true⟩] }

def wVoteOut : DBState × LoanStatus :=
  (cast_vote stVote 1 3 false).toOption.getD (stVote, LoanStatus.pending)

/-- C4 counterexample: user 2 approved, then left; user 3 casts a
rejection.  Both tallies now reach the shrunken effective quorum
(`effective_required = 1`), and the approval check fires first, so the
loan becomes `pre_approved` although the rejection count reached
`effective_required` — refuting the claim's unconditional rejection
clause. -/
theorem cast_vote_rejection_quorum_not_rejected :
    cast_vote stVote 1 3 false = .ok wVoteOut ∧
    min wLoanPendingV.total_eligible_voters (activeMemberCount stVote 1 - 1) / 2 + 1 ≤
      get_rejection_count wVoteOut.1 1 ∧
    wVoteOut.2 = LoanStatus.preApproved ∧
    wVoteOut.2 ≠ LoanStatus.rejected := by
  refine ⟨by rfl, by decide, by decide, by decide⟩

/-- `approve_loan_with_interest` never touches the membership table. -/
lemma approve_loan_members (st : DBState) (lid : Nat) (b : Bool) (st2 : DBState)
    (h : approve_loan_with_interest st lid b = some st2) :
    st2.members = st.members := by
  simp only [approve_loan_with_interest] at h
  repeat' split at h
  all_goals
    first
    | (injection h with h'; subst h'; simp [updateLoan])
    | injection h

/-- The vote just inserted is itself counted, so at least one vote is
always cast. -/
lemma votes_cast_pos (st : DBState) (lid uid : Nat) (b : Bool) :
    0 < get_approval_count
        { st with approvals := st.approvals ++ [⟨lid, uid, b⟩] } lid +
      get_rejection_count
        { st with approvals := st.approvals ++ [⟨lid, uid, b⟩] } lid := by
  cases b <;>
    simp [get_approval_count, get_rejection_count, List.filter_append]

/-- C4 (amended): after inserting the vote, `cast_vote` recomputes
`effective_required = min(frozen_eligible, current_active - 1) / 2 + 1`
and transitions in this precedence order: a requester who is no longer an
active member forces `rejected` regardless of the tallies; otherwise if
the approval count reaches `effective_required` the loan becomes
`approved` when the requester is the group's sole active admin and
`pre_approved` otherwise (even if the rejection count also reached the
quorum); otherwise if the rejection count reaches `effective_required`
the loan becomes `rejected`. -/
theorem cast_vote_spec (st : DBState) (lid uid : Nat) (approved : Bool)
    (out : DBState × LoanStatus) (loan : LoanRequest)
    (hloan : findLoan st lid = some loan)
    (h : cast_vote st lid uid approved = .ok out) :
    ((st.members.find? (fun m => m.group_id == loan.group_id &&
        m.user_id == loan.requested_by && m.is_active)).isSome = false →
      out.2 = LoanStatus.rejected) ∧
    ((st.members.find? (fun m => m.group_id == loan.group_id &&
        m.user_id == loan.requested_by && m.is_active)).isSome = true →
      min loan.total_eligible_voters (activeMemberCount st loan.group_id - 1) / 2 + 1 ≤
        ((st.approvals ++ [(⟨lid, uid, approved⟩ : LoanApproval)]).filter
          (fun v => v.loan_id == lid && v.approved)).length →
      out.2 = (if (st.members.filter (fun m => m.group_id == loan.group_id &&
            m.role == MemberRole.admin && m.is_active)).any
            (fun m => m.user_id == loan.requested_by) &&
          ((st.members.filter (fun m => m.group_id == loan.group_id &&
            m.role == MemberRole.admin && m.is_active)).length == 1)
        then LoanStatus.approved else LoanStatus.preApproved)) ∧
    ((st.members.find? (fun m => m.group_id == loan.group_id &&
        m.user_id == loan.requested_by && m.is_active)).isSome = true →
      ((st.approvals ++ [(⟨lid, uid, approved⟩ : LoanApproval)]).filter
          (fun v => v.loan_id == lid && v.approved)).length <
        min loan.total_eligible_voters (activeMemberCount st loan.group_id - 1) / 2 + 1 →
      min loan.total_eligible_voters (activeMemberCount st loan.group_id - 1) / 2 + 1 ≤
        ((st.approvals ++ [(⟨lid, uid, approved⟩ : LoanApproval)]).filter
          (fun v => v.loan_id == lid && !v.approved)).length →
      out.2 = LoanStatus.rejected) := by
  simp only [cast_vote] at h
  split at h
  · exact absurd h (by simp)
  next hcan =>
    split at h
    · exact absurd h (by simp)
    next loan' hfind =>
      rw [hloan] at hfind
      injection hfind with hL
      subst hL
      split at h
      · -- applicant no longer active
        next hact =>
        injection h with h'
        subst h'
        have hactF : (st.members.find? (fun m => m.group_id == loan.group_id &&
            m.user_id == loan.requested_by && m.is_active)).isSome = false := by
          simpa using hact
        refine ⟨fun _ => rfl, fun ha _ => ?_, fun ha _ _ => ?_⟩ <;>
          exact absurd ha (by rw [hactF]; simp)
      · next hact =>
        have hactT : (st.members.find? (fun m => m.group_id == loan.group_id &&
            m.user_id == loan.requested_by && m.is_active)).isSome = true := by
          rcases hb : (st.members.find? (fun m => m.group_id == loan.group_id &&
            m.user_id == loan.requested_by && m.is_active)).isSome with _ | _
          · exact absurd (by rw [hb]; rfl) hact
          · exact hb
        split at h
        · -- approval quorum reached
          next hac =>
          split at h
          · exact absurd h (by simp)
          next st2 happrove =>
            injection h with h'
            subst h'
            refine ⟨fun hf => absurd hactT (by rw [hf]; simp), fun _ _ => ?_,
              fun _ hlt _ => absurd hac.1 (not_le.mpr hlt)⟩
            have hmem2 : st2.members = st.members := by
              have hm := approve_loan_members _ lid false st2 happrove
              simpa using hm
            show (if (st2.members.filter _).any _ && ((st2.members.filter _).length == 1)
              then LoanStatus.approved else LoanStatus.preApproved) = _
            rw [hmem2]
        · -- approval quorum not reached
          next hnac =>
          split at h
          · next hrc =>
            injection h with h'
            subst h'
            exact ⟨fun hf => absurd hactT (by rw [hf]; simp), fun _ hac =>
              absurd ⟨hac, votes_cast_pos st lid uid approved⟩ hnac,
              fun _ _ _ => rfl⟩
          · next hnrc =>
            injection h with h'
            subst h'
            exact ⟨fun hf => absurd hactT (by rw [hf]; simp),
              fun _ hac => absurd ⟨hac, votes_cast_pos st lid uid approved⟩ hnac,
              fun _ _ hrc => absurd hrc hnrc⟩

theorem cast_vote_spec_witness :
    findLoan stVote 1 = some wLoanPendingV ∧
    cast_vote stVote 1 3 false = .ok wVoteOut ∧
    (stVote.members.find? (fun m => m.group_id == wLoanPendingV.group_id &&
      m.user_id == wLoanPendingV.requested_by && m.is_active)).isSome = true ∧
    min wLoanPendingV.total_eligible_voters
        (activeMemberCount stVote wLoanPendingV.group_id - 1) / 2 + 1 ≤
      ((stVote.approvals ++ [(⟨1, 3, false⟩ : LoanApproval)]).filter
        (fun v => v.loan_id == 1 && v.approved)).length ∧
    wVoteOut.2 = (if (stVote.members.filter (fun m => m.group_id == wLoanPendingV.group_id &&
          m.role == MemberRole.admin && m.is_active)).any
          (fun m => m.user_id == wLoanPendingV.requested_by) &&
        ((stVote.members.filter (fun m => m.group_id == wLoanPendingV.group_id &&
          m.role == MemberRole.admin && m.is_active)).length == 1)
      then LoanStatus.approved else LoanStatus.preApproved) :=
  ⟨by decide, by rfl, by decide, by decide,
    (cast_vote_spec stVote 1 3 false wVoteOut wLoanPendingV (by decide) (by rfl)).2.1
      (by decide) (by decide)⟩

-- ============================================================
-- C5: reducing-balance EMI schedule
-- ============================================================

/-- The exact (unrounded) running balance of the reducing-balance loop
after a number of non-final installments: each step subtracts the
unrounded principal component `emi - balance * r`. -/
def rbBal (emi r : ℚ) : ℚ → Nat → ℚ
  | b, 0 => b
  | b, k+1 => rbBal emi r (b - (emi - b * r)) k

/-- Python `round` of an integer is the integer. -/
lemma pyRound_int (m : ℤ) : pyRound (m : ℚ) = m := by
  simp only [pyRound, Int.floor_intCast]
  norm_num

/-- Python `round` moves a rational by at most half a unit. -/
lemma pyRound_close (q : ℚ) : |(pyRound q : ℚ) - q| ≤ 1/2 := by
  have h1 : (⌊q⌋ : ℚ) ≤ q := Int.floor_le q
  have h2 : q < ⌊q⌋ + 1 := Int.lt_floor_add_one q
  simp only [pyRound]
  split
  next h => rw [abs_le]; push_cast; constructor <;> linarith
  next h =>
    split
    next h' => rw [abs_le]; push_cast; constructor <;> linarith
    next h' =>
      have : q - (⌊q⌋ : ℚ) = 1/2 := by linarith
      split <;> (rw [abs_le]; push_cast; constructor <;> linarith)

/-- The identity relating the final-installment interest clamp to the
claim's clamp correction. -/
lemma max_clamp_id (emi L : ℚ) : max (emi - L) 0 + L - emi = max (L - emi) 0 := by
  rcases le_total emi L with h | h
  · rw [max_eq_right (by linarith : emi - L ≤ (0:ℚ)),
      max_eq_left (by linarith : (0:ℚ) ≤ L - emi)]
    ring
  · rw [max_eq_left (by linarith : (0:ℚ) ≤ emi - L),
      max_eq_right (by linarith : L - emi ≤ (0:ℚ))]
    ring

/-- Triangle-inequality step for the rounded-sum drift bounds. -/
lemma abs_sub_decomp (A B p q s t e1 e2 : ℚ) (hAB : A - B = (p - q) + (s - t))
    (h1 : |p - q| ≤ e1) (h2 : |s - t| ≤ e2) : |A - B| ≤ e1 + e2 := by
  rw [hAB]
  exact le_trans (abs_add _ _) (add_le_add h1 h2)

lemma rbScheduleAux_sums (loanId firstId : Nat) (emi r : ℚ) (n : Nat) :
    ∀ k i b, i + k = n + 1 → 1 ≤ k →
      (rbScheduleAux loanId firstId emi r n i k b).length = k ∧
      (rbScheduleAux loanId firstId emi r n i k b).getLast? = some
        { id := firstId + n - 1, loan_id := loanId, installment_number := n,
          emi_amount := emi,
          principal_component := ((pyRound (rbBal emi r b (k-1))) : ℚ),
          interest_component := ((pyRound (max (emi - rbBal emi r b (k-1)) 0)) : ℚ),
          opening_balance := ((pyRound (rbBal emi r b (k-1))) : ℚ),
          closing_balance := ((pyRound (max (rbBal emi r b (k-1) - rbBal emi r b (k-1)) 0)) : ℚ),
          is_paid := false } ∧
      |((rbScheduleAux loanId firstId emi r n i k b).map
          (fun e => e.principal_component)).sum - b| ≤ (k : ℚ) * (1/2) ∧
      |((rbScheduleAux loanId firstId emi r n i k b).map
          (fun e => e.interest_component)).sum -
        (((k : ℚ) - 1) * emi + max (emi - rbBal emi r b (k-1)) 0 +
          rbBal emi r b (k-1) - b)| ≤ (k : ℚ) * (1/2) := by
  intro k
  induction k with
  | zero => intro i b _ hk; exact absurd hk (by norm_num)
  | succ k ih =>
    intro i b hik _
    cases k with
    | zero =>
      have hi : i = n := by omega
      subst hi
      have hb : rbScheduleAux loanId firstId emi r i i 1 b =
          [⟨firstId + i - 1, loanId, i, emi, ((pyRound b : ℤ) : ℚ),
            ((pyRound (max (emi - b) 0) : ℤ) : ℚ), ((pyRound b : ℤ) : ℚ),
            ((pyRound (max (b - b) 0) : ℤ) : ℚ), false⟩] := by
        simp [rbScheduleAux]
      rw [hb]
      refine ⟨rfl, by simp [rbBal], ?_, ?_⟩
      · simpa using pyRound_close b
      · simp only [List.map, List.sum_cons, List.sum_nil, rbBal]
        refine le_trans (abs_sub_decomp _ _
          ((pyRound (max (emi - b) 0) : ℤ) : ℚ) (max (emi - b) 0) 0 0 (1/2) 0
          (by push_cast; ring) (pyRound_close _) (by simp)) (by push_cast; linarith)
    | succ k' =>
      have hilt : i ≠ n := by omega
      obtain ⟨hlen, hlast, hps, his⟩ := ih (i+1) (b - (emi - b * r)) (by omega) (by omega)
      have hne : rbScheduleAux loanId firstId emi r n (i+1) (k'+1) (b - (emi - b * r)) ≠ [] := by
        intro hnil
        rw [hnil] at hlen
        simp at hlen
      have hbal : rbBal emi r b (k' + 1 + 1 - 1) =
          rbBal emi r (b - (emi - b * r)) (k' + 1 - 1) := by
        show rbBal emi r b (k' + 1) = _
        rfl
      have hstep : rbScheduleAux loanId firstId emi r n i (k'+1+1) b =
          ⟨firstId + i - 1, loanId, i, emi, ((pyRound (emi - b * r) : ℤ) : ℚ),
            ((pyRound (b * r) : ℤ) : ℚ), ((pyRound b : ℤ) : ℚ),
            ((pyRound (max (b - (emi - b * r)) 0) : ℤ) : ℚ), false⟩ ::
          rbScheduleAux loanId firstId emi r n (i+1) (k'+1) (b - (emi - b * r)) := by
        simp [rbScheduleAux, hilt]
      rw [hstep]
      refine ⟨by rw [List.length_cons, hlen], ?_, ?_, ?_⟩
      · obtain ⟨x, xs, hxx⟩ := List.exists_cons_of_ne_nil hne
        rw [hxx, List.getLast?_cons_cons, ← hxx, hlast, hbal]
      · rw [List.map_cons, List.sum_cons]
        refine le_trans (abs_sub_decomp _ _
          ((pyRound (emi - b * r) : ℤ) : ℚ) (emi - b * r)
          ((rbScheduleAux loanId firstId emi r n (i+1) (k'+1) (b - (emi - b * r))).map
            (fun e => e.principal_component)).sum (b - (emi - b * r))
          (1/2) (((k' + 1 : ℕ) : ℚ) * (1/2))
          (by push_cast; ring) (pyRound_close _) hps) (by push_cast; linarith)
      · rw [List.map_cons, List.sum_cons, hbal]
        refine le_trans (abs_sub_decomp _ _
          ((pyRound (b * r) : ℤ) : ℚ) (b * r)
          ((rbScheduleAux loanId firstId emi r n (i+1) (k'+1) (b - (emi - b * r))).map
            (fun e => e.interest_component)).sum
          ((((k' + 1 : ℕ) : ℚ) - 1) * emi +
            max (emi - rbBal emi r (b - (emi - b * r)) (k' + 1 - 1)) 0 +
            rbBal emi r (b - (emi - b * r)) (k' + 1 - 1) - (b - (emi - b * r)))
          (1/2) (((k' + 1 : ℕ) : ℚ) * (1/2))
          (by push_cast; ring) (pyRound_close _) his) (by push_cast; linarith)


/-- C5 (amended): reducing-balance approval sets
`emi = round(P*r*(1+r)^n/((1+r)^n-1))` (`P/n` when `r = 0`),
`total_interest = emi*n - P` and `total_repayable = P + total_interest`,
and generates an `n`-installment schedule whose final installment's
principal is forced to the remaining exact balance and whose interest is
clamped at zero; the stored (per-installment rounded) principal
components sum to `P`, and the stored interest components to
`total_interest` plus the final clamp correction, each only within
`n/2` rounding units — not within a single rounding unit. -/
theorem emi_reducing_balance_spec (loanId firstId : Nat) (P R : ℚ) (n : Nat) (pz : ℤ)
    (hP : P = (pz : ℚ)) (hn : 1 ≤ n) :
    ∃ res, generate_emi_schedule_reducing_balance loanId firstId P R n = some res ∧
      res.emi_amount = ((pyRound (if 0 < R / 12 / 100 then
          P * (R / 12 / 100) * (1 + R / 12 / 100)^n / ((1 + R / 12 / 100)^n - 1)
        else P / (n : ℚ))) : ℚ) ∧
      res.total_interest = res.emi_amount * (n : ℚ) - P ∧
      res.total_repayable = P + res.total_interest ∧
      res.entries.length = n ∧
      (∃ last, res.entries.getLast? = some last ∧
        last.installment_number = n ∧
        last.principal_component =
          ((pyRound (rbBal res.emi_amount (R/12/100) P (n-1))) : ℚ) ∧
        last.interest_component =
          ((pyRound (max (res.emi_amount - rbBal res.emi_amount (R/12/100) P (n-1)) 0)) : ℚ)) ∧
      |(res.entries.map (fun e => e.principal_component)).sum - P| ≤ (n : ℚ) * (1/2) ∧
      |(res.entries.map (fun e => e.interest_component)).sum -
        (res.total_interest +
          max (rbBal res.emi_amount (R/12/100) P (n-1) - res.emi_amount) 0)| ≤
        (n : ℚ) * (1/2) := by
  have hn0 : ¬ n = 0 := by omega
  refine ⟨⟨((pyRound (if 0 < R / 12 / 100 then
      P * (R / 12 / 100) * (1 + R / 12 / 100)^n / ((1 + R / 12 / 100)^n - 1)
    else P / (n : ℚ))) : ℚ),
    ((pyRound (((pyRound (if 0 < R / 12 / 100 then
      P * (R / 12 / 100) * (1 + R / 12 / 100)^n / ((1 + R / 12 / 100)^n - 1)
    else P / (n : ℚ))) : ℚ) * (n : ℚ) - P)) : ℚ),
    ((pyRound (P + (((pyRound (if 0 < R / 12 / 100 then
      P * (R / 12 / 100) * (1 + R / 12 / 100)^n / ((1 + R / 12 / 100)^n - 1)
    else P / (n : ℚ))) : ℚ) * (n : ℚ) - P))) : ℚ),
    rbScheduleAux loanId firstId ((pyRound (if 0 < R / 12 / 100 then
      P * (R / 12 / 100) * (1 + R / 12 / 100)^n / ((1 + R / 12 / 100)^n - 1)
    else P / (n : ℚ))) : ℚ) (R / 12 / 100) n 1 n P⟩, ?_, rfl, ?_, ?_, ?_, ?_, ?_, ?_⟩
  · simp only [generate_emi_schedule_reducing_balance, if_neg hn0]
  · -- total_interest = emi * n - P
    show ((pyRound (_ * (n : ℚ) - P)) : ℚ) = _
    rw [show (((pyRound (if 0 < R / 12 / 100 then
        P * (R / 12 / 100) * (1 + R / 12 / 100)^n / ((1 + R / 12 / 100)^n - 1)
      else P / (n : ℚ))) : ℚ) * (n : ℚ) - P) =
      (((pyRound (if 0 < R / 12 / 100 then
        P * (R / 12 / 100) * (1 + R / 12 / 100)^n / ((1 + R / 12 / 100)^n - 1)
      else P / (n : ℚ)) * (n : ℤ) - pz : ℤ)) : ℚ) from by rw [hP]; push_cast; ring]
    rw [pyRound_int]
  · -- total_repayable = P + total_interest
    show ((pyRound (P + _)) : ℚ) = P + ((pyRound _) : ℚ)
    rw [show (((pyRound (if 0 < R / 12 / 100 then
        P * (R / 12 / 100) * (1 + R / 12 / 100)^n / ((1 + R / 12 / 100)^n - 1)
      else P / (n : ℚ))) : ℚ) * (n : ℚ) - P) =
      (((pyRound (if 0 < R / 12 / 100 then
        P * (R / 12 / 100) * (1 + R / 12 / 100)^n / ((1 + R / 12 / 100)^n - 1)
      else P / (n : ℚ)) * (n : ℤ) - pz : ℤ)) : ℚ) from by rw [hP]; push_cast; ring]
    rw [pyRound_int]
    rw [show (P + (((pyRound (if 0 < R / 12 / 100 then
        P * (R / 12 / 100) * (1 + R / 12 / 100)^n / ((1 + R / 12 / 100)^n - 1)
      else P / (n : ℚ)) * (n : ℤ) - pz : ℤ)) : ℚ)) =
      (((pz + (pyRound (if 0 < R / 12 / 100 then
        P * (R / 12 / 100) * (1 + R / 12 / 100)^n / ((1 + R / 12 / 100)^n - 1)
      else P / (n : ℚ)) * (n : ℤ) - pz) : ℤ)) : ℚ) from by rw [hP]; push_cast; ring]
    rw [pyRound_int]
  · exact (rbScheduleAux_sums loanId firstId _ (R/12/100) n n 1 P (by omega) hn).1
  · exact ⟨_, (rbScheduleAux_sums loanId firstId _ (R/12/100) n n 1 P (by omega) hn).2.1,
      rfl, rfl, rfl⟩
  · exact (rbScheduleAux_sums loanId firstId _ (R/12/100) n n 1 P (by omega) hn).2.2.1
  · have hi := (rbScheduleAux_sums loanId firstId ((pyRound (if 0 < R / 12 / 100 then
      P * (R / 12 / 100) * (1 + R / 12 / 100)^n / ((1 + R / 12 / 100)^n - 1)
    else P / (n : ℚ))) : ℚ) (R/12/100) n n 1 P (by omega) hn).2.2.2
    have hti : (((pyRound (((pyRound (if 0 < R / 12 / 100 then
        P * (R / 12 / 100) * (1 + R / 12 / 100)^n / ((1 + R / 12 / 100)^n - 1)
      else P / (n : ℚ))) : ℚ) * (n : ℚ) - P)) : ℚ)) =
        (((pyRound (if 0 < R / 12 / 100 then
        P * (R / 12 / 100) * (1 + R / 12 / 100)^n / ((1 + R / 12 / 100)^n - 1)
      else P / (n : ℚ))) : ℚ) * (n : ℚ) - P) := by
      rw [show (((pyRound (if 0 < R / 12 / 100 then
          P * (R / 12 / 100) * (1 + R / 12 / 100)^n / ((1 + R / 12 / 100)^n - 1)
        else P / (n : ℚ))) : ℚ) * (n : ℚ) - P) =
        (((pyRound (if 0 < R / 12 / 100 then
          P * (R / 12 / 100) * (1 + R / 12 / 100)^n / ((1 + R / 12 / 100)^n - 1)
        else P / (n : ℚ)) * (n : ℤ) - pz : ℤ)) : ℚ) from by rw [hP]; push_cast; ring]
      rw [pyRound_int]
    show |_ - _| ≤ _
    rw [hti]
    refine le_trans (le_of_eq (congrArg abs ?_)) hi
    rw [show ((n:ℚ) - 1) * (((pyRound (if 0 < R / 12 / 100 then
        P * (R / 12 / 100) * (1 + R / 12 / 100)^n / ((1 + R / 12 / 100)^n - 1)
      else P / (n : ℚ))) : ℚ)) +
      max ((((pyRound (if 0 < R / 12 / 100 then
        P * (R / 12 / 100) * (1 + R / 12 / 100)^n / ((1 + R / 12 / 100)^n - 1)
      else P / (n : ℚ))) : ℚ)) - rbBal _ (R/12/100) P (n-1)) 0 +
      rbBal _ (R/12/100) P (n-1) - P =
      ((((pyRound (if 0 < R / 12 / 100 then
        P * (R / 12 / 100) * (1 + R / 12 / 100)^n / ((1 + R / 12 / 100)^n - 1)
      else P / (n : ℚ))) : ℚ)) * (n:ℚ) - P) +
      max (rbBal _ (R/12/100) P (n-1) - (((pyRound (if 0 < R / 12 / 100 then
        P * (R / 12 / 100) * (1 + R / 12 / 100)^n / ((1 + R / 12 / 100)^n - 1)
      else P / (n : ℚ))) : ℚ))) 0 from by
        linear_combination max_clamp_id (((pyRound (if 0 < R / 12 / 100 then
          P * (R / 12 / 100) * (1 + R / 12 / 100)^n / ((1 + R / 12 / 100)^n - 1)
        else P / (n : ℚ))) : ℚ)) (rbBal _ (R/12/100) P (n-1))]


/-- Concrete schedule for principal 100, annual rate 8%, 4 months. -/
def wEmiRes : EmiGenResult :=
  (generate_emi_schedule_reducing_balance 1 1 100 8 4).getD ⟨0, 0, 0, []⟩

/-- C5 counterexample: for principal 100, annual rate 8% and 4 months the
rounded EMI is 25, so `total_interest = emi*n - P = 0`, yet the stored
per-installment interest components (each rounded to a unit) sum to 2 —
more than one rounding unit away from `total_interest`.  The per-unit
rounding errors accumulate: the schedule sums only agree with the totals
within `n/2` units, not within a single rounding unit. -/
theorem emi_interest_sum_off_by_units :
    generate_emi_schedule_reducing_balance 1 1 100 8 4 = some wEmiRes ∧
    wEmiRes.emi_amount = 25 ∧
    wEmiRes.total_interest = 0 ∧
    (wEmiRes.entries.map (fun e => e.principal_component)).sum = 100 ∧
    (wEmiRes.entries.map (fun e => e.interest_component)).sum = 2 ∧
    ¬ |(wEmiRes.entries.map (fun e => e.interest_component)).sum -
        wEmiRes.total_interest| ≤ 1 :=
  ⟨by decide, by decide, by decide, by decide, by decide, by decide⟩

/-- Witness for the amended C5 theorem at principal 100, rate 8%, 4 months. -/
theorem emi_reducing_balance_spec_witness :
    (100 : ℚ) = ((100 : ℤ) : ℚ) ∧ 1 ≤ 4 ∧
    (∃ res, generate_emi_schedule_reducing_balance 1 1 100 8 4 = some res ∧
      res.emi_amount = ((pyRound (if 0 < (8:ℚ) / 12 / 100 then
          100 * ((8:ℚ) / 12 / 100) * (1 + (8:ℚ) / 12 / 100)^4 / ((1 + (8:ℚ) / 12 / 100)^4 - 1)
        else 100 / ((4:ℕ) : ℚ))) : ℚ) ∧
      res.total_interest = res.emi_amount * ((4:ℕ) : ℚ) - 100 ∧
      res.total_repayable = 100 + res.total_interest ∧
      res.entries.length = 4 ∧
      (∃ last, res.entries.getLast? = some last ∧
        last.installment_number = 4 ∧
        last.principal_component =
          ((pyRound (rbBal res.emi_amount ((8:ℚ)/12/100) 100 (4-1))) : ℚ) ∧
        last.interest_component =
          ((pyRound (max (res.emi_amount - rbBal res.emi_amount ((8:ℚ)/12/100) 100 (4-1)) 0)) : ℚ)) ∧
      |(res.entries.map (fun e => e.principal_component)).sum - 100| ≤ ((4:ℕ) : ℚ) * (1/2) ∧
      |(res.entries.map (fun e => e.interest_component)).sum -
        (res.total_interest +
          max (rbBal res.emi_amount ((8:ℚ)/12/100) 100 (4-1) - res.emi_amount) 0)| ≤
        ((4:ℕ) : ℚ) * (1/2)) :=
  ⟨by norm_num, by norm_num,
    emi_reducing_balance_spec 1 1 100 8 4 100 (by norm_num) (by norm_num)⟩

-- ============================================================
-- C1: the ledger invariant
-- ============================================================

/-- The ledger invariant: every wallet's cached balance equals the signed
sum of that wallet's non-reversed ledger entries. -/
def LedgerInv (st : DBState) : Prop :=
  ∀ w ∈ st.wallets, w.balance = ledgerSum st.transactions w.id

instance decLedgerInv (st : DBState) : Decidable (LedgerInv st) := by
  unfold LedgerInv
  infer_instance

/-- One successful wallet-service operation.  An error return rolls the
unit of work back, leaving the state unchanged, so only `.ok` results
move the state. -/
inductive OpStep : DBState → DBState → Prop
  | contribute {st : DBState} (wid uid : Nat) (amt : Money) (k : String)
      {out : DBState × MemberContribution × WalletTransaction}
      (h : contribute_to_wallet st wid uid amt k = .ok out) : OpStep st out.1
  | disburse {st : DBState} (lid aid : Nat) (k : String)
      {out : DBState × WalletTransaction}
      (h : disburse_loan st lid aid k = .ok out) : OpStep st out.1
  | approve {st : DBState} (rid aid : Nat) (fk : String) (ik : Nat → String)
      {out : DBState × WalletTransaction × List InterestDistribution}
      (h : approve_repayment st rid aid fk ik = .ok out) : OpStep st out.1
  | recalc {st : DBState} (wid : Nat)
      {out : DBState × RecalcResult}
      (h : recalculate_wallet_balance st wid = .ok out) : OpStep st out.1

/-- Any finite sequence of successful wallet-service operations. -/
inductive OpStar : DBState → DBState → Prop
  | refl (st : DBState) : OpStar st st
  | tail {st st' st'' : DBState} :
      OpStar st st' → OpStep st' st'' → OpStar st st''

lemma mem_of_findWallet (st : DBState) (wid : Nat) (w : GroupWallet)
    (h : findWallet st wid = some w) : w ∈ st.wallets ∧ w.id = wid :=
  ⟨List.mem_of_find?_eq_some h, by simpa using List.find?_some h⟩

lemma mem_of_findWalletByGroup (st : DBState) (gid : Nat) (w : GroupWallet)
    (h : findWalletByGroup st gid = some w) : w ∈ st.wallets :=
  List.mem_of_find?_eq_some h

lemma contribute_preserves (st : DBState) (wid uid : Nat) (amt : Money) (k : String)
    (out : DBState × MemberContribution × WalletTransaction)
    (h : contribute_to_wallet st wid uid amt k = .ok out)
    (hinv : LedgerInv st) : LedgerInv out.1 := by
  obtain ⟨wallet, hfw, -, -, -, htxn, htr, hws, -, -, -, -, -, -, -, -⟩ :=
    contribute_ok st wid uid amt k out h
  obtain ⟨hwmem, hwid⟩ := mem_of_findWallet st wid wallet hfw
  intro w' hw'
  rw [hws] at hw'
  obtain ⟨w, hwm2, rfl⟩ := List.mem_map.1 hw'
  rw [htr, ledgerSum_append, ledgerSum_single, htxn]
  by_cases hc : (w.id == wid) = true
  · have hwe : w.id = wid := by simpa using hc
    simp only [hc, if_true]
    simp [hwe, hinv wallet hwmem, hwid]
  · have hne : wid ≠ w.id := fun he => hc (by simp [he])
    simp only [hc, if_false]
    simp [hne, hinv w hwm2]

lemma disburse_preserves (st : DBState) (lid aid : Nat) (k : String)
    (out : DBState × WalletTransaction)
    (h : disburse_loan st lid aid k = .ok out)
    (hinv : LedgerInv st) : LedgerInv out.1 := by
  obtain ⟨loan, wallet, -, -, -, hwg, -, htxn, htr, hws, -, -, -, -, -, -, -, -, -⟩ :=
    disburse_ok st lid aid k out h
  have hwmem := mem_of_findWalletByGroup st loan.group_id wallet hwg
  intro w' hw'
  rw [hws] at hw'
  obtain ⟨w, hwm2, rfl⟩ := List.mem_map.1 hw'
  rw [htr, ledgerSum_append, ledgerSum_single, htxn]
  by_cases hc : (w.id == wallet.id) = true
  · have hwe : w.id = wallet.id := by simpa using hc
    simp only [hc, if_true]
    simp [hwe, hinv wallet hwmem]
    ring
  · have hne : wallet.id ≠ w.id := fun he => hc (by simp [he])
    simp only [hc, if_false]
    simp [hne, hinv w hwm2]

lemma approve_preserves (st : DBState) (rid aid : Nat) (fk : String) (ik : Nat → String)
    (out : DBState × WalletTransaction × List InterestDistribution)
    (h : approve_repayment st rid aid fk ik = .ok out)
    (hinv : LedgerInv st) : LedgerInv out.1 := by
  obtain ⟨rp, loan, wallet, threshold, -, -, -, hwg, -, hws, hsum, -, -, -⟩ :=
    approve_ok st rid aid fk ik out h
  have hwmem := mem_of_findWalletByGroup st loan.group_id wallet hwg
  intro w' hw'
  rw [hws] at hw'
  obtain ⟨w, hwm2, rfl⟩ := List.mem_map.1 hw'
  by_cases hc : (w.id == wallet.id) = true
  · have hwe : w.id = wallet.id := by simpa using hc
    simp only [hc, if_true]
    rw [hsum]
    simp [hwe, hinv wallet hwmem]
  · have hne : wallet.id ≠ w.id := fun he => hc (by simp [he])
    simp only [hc, if_false]
    rw [hsum]
    simp [hne, hinv w hwm2]

lemma recalc_preserves (st : DBState) (wid : Nat)
    (out : DBState × RecalcResult)
    (h : recalculate_wallet_balance st wid = .ok out)
    (hinv : LedgerInv st) : LedgerInv out.1 := by
  simp only [recalculate_wallet_balance] at h
  split at h
  · exact absurd h (by simp)
  next wallet hfw =>
    obtain ⟨hwmem, hwid⟩ := mem_of_findWallet st wid wallet hfw
    have hz : ((st.transactions.filter (fun t =>
        t.wallet_id == wid && !t.is_reversed)).map (fun t => t.amount)).sum -
        wallet.balance = 0 := by
      have hb : wallet.balance = ledgerSum st.transactions wid := by
        rw [hinv wallet hwmem, hwid]
      rw [hb]
      exact sub_self _
    rw [hz] at h
    rw [if_neg (by norm_num)] at h
    injection h with h'
    subst h'
    intro w' hw'
    simp only [updateWallet] at hw' ⊢
    obtain ⟨w, hwm2, rfl⟩ := List.mem_map.1 hw'
    by_cases hc : (w.id == wid) = true <;> simp [hc, hinv w hwm2]

lemma opStep_preserves {st st' : DBState} (h : OpStep st st')
    (hinv : LedgerInv st) : LedgerInv st' := by
  cases h with
  | contribute wid uid amt k h => exact contribute_preserves _ _ _ _ _ _ h hinv
  | disburse lid aid k h => exact disburse_preserves _ _ _ _ _ h hinv
  | approve rid aid fk ik h => exact approve_preserves _ _ _ _ _ _ h hinv
  | recalc wid h => exact recalc_preserves _ _ _ h hinv

/-- C1: for every wallet, after any finite sequence of successful
`contribute_to_wallet`, `disburse_loan`, `approve_repayment` (with its
interest distribution) and `recalculate_wallet_balance` operations
starting from a state satisfying the ledger invariant (for example the
empty database), every wallet's cached balance still equals the signed
sum of the non-reversed ledger entries of that wallet. -/
theorem ledger_invariant (st st' : DBState) (hstar : OpStar st st')
    (hinv : LedgerInv st) : LedgerInv st' := by
  induction hstar with
  | refl => exact hinv
  | tail _ hstep ih => exact opStep_preserves hstep ih

/-- Base state for the ledger-invariant witness: one group, an empty
wallet, three active members, no ledger rows. -/
def wInvSt0 : DBState :=
  { groups := [wGroup], wallets := [⟨1, 1, 0, 0, 0, 0, false⟩],
    transactions := [], contributions := [], member_ledgers := [],
    members := [wAdmin, wMemB, wMemC], loans := [], repayments := [],
    emis := [], snapshots := [], distributions := [], approvals := [] }

/-- The result of one contribution of 50 by member 2 on the witness
base state. -/
def wInvOut : DBState × MemberContribution × WalletTransaction :=
  (contribute_to_wallet wInvSt0 1 2 50 "k1").toOption.getD
    (wInvSt0, ⟨0, 0, 0, 0, none⟩,
      ⟨0, 0, TxType.contribution, 0, none, none, 0, none, "z", false⟩)

/-- Witness for the ledger invariant: a concrete one-step chain. -/
theorem ledger_invariant_witness :
    OpStar wInvSt0 wInvOut.1 ∧ LedgerInv wInvSt0 ∧ LedgerInv wInvOut.1 := by
  have hok : contribute_to_wallet wInvSt0 1 2 50 "k1" = .ok wInvOut := by rfl
  have hstar : OpStar wInvSt0 wInvOut.1 :=
    OpStar.tail (OpStar.refl _) (OpStep.contribute 1 2 50 "k1" hok)
  exact ⟨hstar, by decide, ledger_invariant _ _ hstar (by decide)⟩

end BachatGat
